import Mathlib

/-!
# AIS25BA register driver: a shallow embedding of `ais25ba_reg.c` / `ais25ba_reg.h`

Bytes, bit-field members and statuses are natural numbers / integers with the
wrap-around of the C types written out.  The bus behind the two function
pointers of `stmdev_ctx_t` is a state of an arbitrary type `σ` that the read
and write routines transform, so the driver functions are state passing.
The automatic variables the C functions declare without an initialiser are
given by a `stack : Nat → Nat` argument (their indeterminate initial bytes,
numbered in the order of declaration).
-/

namespace AIS25BA

set_option autoImplicit false

/-! ## Register map (`ais25ba_reg.h`) -/

def AIS25BA_TEST_REG : Nat := 0x0B
def AIS25BA_WHO_AM_I : Nat := 0x0F
def AIS25BA_TDM_CMAX_H : Nat := 0x24
def AIS25BA_TDM_CMAX_L : Nat := 0x25
def AIS25BA_CTRL_REG_1 : Nat := 0x26
def AIS25BA_TDM_CTRL_REG : Nat := 0x2E
def AIS25BA_CTRL_REG_2 : Nat := 0x2F

def PROPERTY_DISABLE : Nat := 0
def PROPERTY_ENABLE : Nat := 1

/-- A bit-field member of a one-byte register struct: `width` bits starting at
bit `off` (bit 0 is the least significant bit of the byte). -/
structure BitField where
  off : Nat
  width : Nat
deriving DecidableEq

/-- Reading the member: the `width` bits of `byte` from bit `off` upward. -/
def BitField.get (f : BitField) (byte : Nat) : Nat :=
  byte / 2 ^ f.off % 2 ^ f.width

/-- Assigning `v` to the member: `v` is converted to the member's width
(reduced modulo `2 ^ width`) and replaces the bits `off .. off + width - 1`;
the bits above and below the member keep their value. -/
def BitField.set (f : BitField) (byte v : Nat) : Nat :=
  byte / 2 ^ (f.off + f.width) * 2 ^ (f.off + f.width) + v % 2 ^ f.width * 2 ^ f.off
    + byte % 2 ^ f.off

/-- Member `g` lies entirely below or entirely above member `f`. -/
def BitField.Apart (g f : BitField) : Prop :=
  g.off + g.width ≤ f.off ∨ f.off + f.width ≤ g.off

instance BitField.decidableApart (g f : BitField) : Decidable (g.Apart f) :=
  inferInstanceAs (Decidable (g.off + g.width ≤ f.off ∨ f.off + f.width ≤ g.off))

/-- Member number `i` of a register struct whose members have the listed
widths, in declaration order, under `DRV_BYTE_ORDER == DRV_LITTLE_ENDIAN`
(the default of the header): members are allocated from bit 0 upward. -/
def fieldAt (widths : List Nat) (i : Nat) : BitField :=
  ⟨(widths.take i).sum, widths.getD i 0⟩

/-- Declaration `ais25ba_test_reg_t`: `not_used_01 : 3; st : 1; not_used_02 : 4`. -/
def ais25ba_test_reg_t : List Nat := [3, 1, 4]
def test_reg_not_used_01 : BitField := fieldAt ais25ba_test_reg_t 0
def test_reg_st : BitField := fieldAt ais25ba_test_reg_t 1
def test_reg_not_used_02 : BitField := fieldAt ais25ba_test_reg_t 2

/-- Declaration `ais25ba_tdm_cmax_h_t`: `tdm_cmax : 4; not_used_01 : 4`. -/
def ais25ba_tdm_cmax_h_t : List Nat := [4, 4]
def tdm_cmax_h_tdm_cmax : BitField := fieldAt ais25ba_tdm_cmax_h_t 0
def tdm_cmax_h_not_used_01 : BitField := fieldAt ais25ba_tdm_cmax_h_t 1

/-- Declaration `ais25ba_tdm_cmax_l_t`: `tdm_cmax : 8`. -/
def ais25ba_tdm_cmax_l_t : List Nat := [8]
def tdm_cmax_l_tdm_cmax : BitField := fieldAt ais25ba_tdm_cmax_l_t 0

/-- Declaration `ais25ba_ctrl_reg_t`: `not_used_01 : 5; pd : 1; not_used_02 : 2`. -/
def ais25ba_ctrl_reg_t : List Nat := [5, 1, 2]
def ctrl_reg_not_used_01 : BitField := fieldAt ais25ba_ctrl_reg_t 0
def ctrl_reg_pd : BitField := fieldAt ais25ba_ctrl_reg_t 1
def ctrl_reg_not_used_02 : BitField := fieldAt ais25ba_ctrl_reg_t 2

/-- Declaration `ais25ba_tdm_ctrl_reg_t`: `not_used_01 : 1; wclk_fq : 2;
not_used_02 : 1; mapping : 1; data_valid : 1; delayed : 1; tdm_pd : 1`. -/
def ais25ba_tdm_ctrl_reg_t : List Nat := [1, 2, 1, 1, 1, 1, 1]
def tdm_ctrl_reg_not_used_01 : BitField := fieldAt ais25ba_tdm_ctrl_reg_t 0
def tdm_ctrl_reg_wclk_fq : BitField := fieldAt ais25ba_tdm_ctrl_reg_t 1
def tdm_ctrl_reg_not_used_02 : BitField := fieldAt ais25ba_tdm_ctrl_reg_t 2
def tdm_ctrl_reg_mapping : BitField := fieldAt ais25ba_tdm_ctrl_reg_t 3
def tdm_ctrl_reg_data_valid : BitField := fieldAt ais25ba_tdm_ctrl_reg_t 4
def tdm_ctrl_reg_delayed : BitField := fieldAt ais25ba_tdm_ctrl_reg_t 5
def tdm_ctrl_reg_tdm_pd : BitField := fieldAt ais25ba_tdm_ctrl_reg_t 6

/-- Declaration `ais25ba_axes_ctrl_reg_t`: `odr_auto_en : 1; not_used_01 : 7`. -/
def ais25ba_axes_ctrl_reg_t : List Nat := [1, 7]
def axes_ctrl_reg_odr_auto_en : BitField := fieldAt ais25ba_axes_ctrl_reg_t 0
def axes_ctrl_reg_not_used_01 : BitField := fieldAt ais25ba_axes_ctrl_reg_t 1

/-! ## C integer conversions -/

/-- Conversion of a (possibly negative) `int` to an unsigned object of `w`
bits: the value modulo `2 ^ w`. -/
def wrap (w : Nat) (x : Int) : Nat := (x % 2 ^ w).toNat

/-- The operator `~` on an operand promoted to `int`: `~x = -x - 1`. -/
def c_not (x : Int) : Int := -x - 1

/-! ## Transport (`stmdev_ctx_t`, `ais25ba_read_reg`, `ais25ba_write_reg`) -/

/-- The two mandatory function pointers of `stmdev_ctx_t`, acting on a bus state
`σ` (what `handle` points to).  `write_reg s reg data len` returns the status
and the new state; `read_reg s reg data len` receives the buffer as it is
before the call and returns the status, the buffer as it is after the call and
the new state.  The optional `mdelay` and `priv_data` members are used by no
function of the driver and are left out. -/
structure stmdev_ctx_t (σ : Type) where
  write_reg : σ → Nat → List Nat → Nat → Int × σ
  read_reg : σ → Nat → List Nat → Nat → Int × List Nat × σ

/-- Function `ais25ba_read_reg`: `-1` for a null `ctx` (here `none`), otherwise
the read function pointer is called and its status returned. -/
def ais25ba_read_reg {σ : Type} (ctx : Option (stmdev_ctx_t σ)) (s : σ) (reg : Nat)
    (data : List Nat) (len : Nat) : Int × List Nat × σ :=
  match ctx with
  | none => (-1, data, s)
  | some c => c.read_reg s reg data len

/-- Function `ais25ba_write_reg`: `-1` for a null `ctx`, otherwise the write
function pointer is called and its status returned. -/
def ais25ba_write_reg {σ : Type} (ctx : Option (stmdev_ctx_t σ)) (s : σ) (reg : Nat)
    (data : List Nat) (len : Nat) : Int × σ :=
  match ctx with
  | none => (-1, s)
  | some c => c.write_reg s reg data len

/-- Function `bytecpy`: `*target = *source` when both pointers are non-null.
Every call in the driver passes the addresses of automatic variables, so the
copy always happens; the result is the new content of `*target`. -/
def bytecpy (_target source : Nat) : Nat := source

/-! ## Value types of the API (`ais25ba_reg.h`) -/

/-- Value held by a bit-field member declared with `w` bits: any value read from
it, or assigned to it, is reduced modulo `2 ^ w`. -/
def member (w x : Nat) : Nat := x % 2 ^ w

/-- Type `ais25ba_id_t`. -/
structure ais25ba_id_t where
  id : Nat
deriving DecidableEq

/-- Type `ais25ba_bus_mode_t` (its `tdm` struct).  The declared widths are
`en : 1`, `clk_pol : 1`, `clk_edge : 1`, `mapping : 1` and `cmax : 1`; the
driver reads every member through `member 1`. -/
structure ais25ba_bus_mode_t where
  en : Nat
  clk_pol : Nat
  clk_edge : Nat
  mapping : Nat
  cmax : Nat
deriving DecidableEq

/-- The enumeration of `ais25ba_md_t` (member `xl.odr`). -/
inductive ais25ba_odr_t where
  | AIS25BA_XL_OFF
  | AIS25BA_XL_8kHz
  | AIS25BA_XL_16kHz
  | AIS25BA_XL_24kHz
  | AIS25BA_XL_HW_SEL
deriving DecidableEq

/-- Numeric value of each enumerator. -/
def ais25ba_odr_t.code : ais25ba_odr_t → Nat
  | .AIS25BA_XL_OFF => 0x01
  | .AIS25BA_XL_8kHz => 0x00
  | .AIS25BA_XL_16kHz => 0x02
  | .AIS25BA_XL_24kHz => 0x04
  | .AIS25BA_XL_HW_SEL => 0x10

/-- Type `ais25ba_md_t` (its `xl` struct). -/
structure ais25ba_md_t where
  odr : ais25ba_odr_t
deriving DecidableEq

/-! ## Driver functions (`ais25ba_reg.c`) -/

/-- Function `ais25ba_id_get`: `ret` starts at 0 and the register is read only
when `ctx` is not null. -/
def ais25ba_id_get {σ : Type} (ctx : Option (stmdev_ctx_t σ)) (s : σ) (val : ais25ba_id_t) :
    Int × ais25ba_id_t × σ := Id.run do
  let mut ret : Int := 0
  let mut val := val
  let mut s := s
  if ctx.isSome then
    let r := ais25ba_read_reg ctx s AIS25BA_WHO_AM_I [val.id] 1
    ret := r.1
    val := ⟨r.2.1.getD 0 val.id⟩
    s := r.2.2
  return (ret, val, s)

/-- The assignment `tdm_cmax_h.tdm_cmax = (uint8_t)(val->tdm.cmax / 256U)` of
`ais25ba_bus_mode_set`: the struct `tdm_cmax_h` after it, `cmax` being the
value read from `val->tdm.cmax`. -/
def assign_tdm_cmax_h (cmax tdm_cmax_h : Nat) : Nat :=
  tdm_cmax_h_tdm_cmax.set tdm_cmax_h (cmax / 256 % 256)

/-- The assignment
`tdm_cmax_l.tdm_cmax = (uint8_t)(val->tdm.cmax - tdm_cmax_h.tdm_cmax)` of
`ais25ba_bus_mode_set`: the struct `tdm_cmax_l` after it, `tdm_cmax_h` being
the struct the previous assignment left. -/
def assign_tdm_cmax_l (cmax tdm_cmax_h tdm_cmax_l : Nat) : Nat :=
  tdm_cmax_l_tdm_cmax.set tdm_cmax_l
    (wrap 8 ((cmax : Int) - (tdm_cmax_h_tdm_cmax.get tdm_cmax_h : Int)))

/-- Function `ais25ba_bus_mode_set`.  Automatic variables: `tdm_ctrl_reg`,
`tdm_cmax_h`, `tdm_cmax_l`, `reg[0]`, `reg[1]`.  The two assignments of the
clock-divider members are `assign_tdm_cmax_h` and `assign_tdm_cmax_l`. -/
def ais25ba_bus_mode_set {σ : Type} (ctx : Option (stmdev_ctx_t σ)) (s : σ)
    (val : ais25ba_bus_mode_t) (stack : Nat → Nat) : Int × σ := Id.run do
  let mut tdm_ctrl_reg := stack 0
  let mut tdm_cmax_h := stack 1
  let mut tdm_cmax_l := stack 2
  let mut reg0 := stack 3
  let mut reg1 := stack 4
  let mut s := s
  let r := ais25ba_read_reg ctx s AIS25BA_TDM_CTRL_REG [tdm_ctrl_reg] 1
  let mut ret := r.1
  tdm_ctrl_reg := r.2.1.getD 0 tdm_ctrl_reg
  s := r.2.2
  if ret = 0 then
    let r := ais25ba_read_reg ctx s AIS25BA_TDM_CMAX_H [reg0, reg1] 2
    ret := r.1
    reg0 := r.2.1.getD 0 reg0
    reg1 := r.2.1.getD 1 reg1
    s := r.2.2
    tdm_cmax_h := bytecpy tdm_cmax_h reg0
    tdm_cmax_l := bytecpy tdm_cmax_l reg1
    tdm_ctrl_reg := tdm_ctrl_reg_tdm_pd.set tdm_ctrl_reg (wrap 1 (c_not (member 1 val.en)))
    tdm_ctrl_reg := tdm_ctrl_reg_data_valid.set tdm_ctrl_reg (member 1 val.clk_pol)
    tdm_ctrl_reg := tdm_ctrl_reg_delayed.set tdm_ctrl_reg (member 1 val.clk_edge)
    tdm_ctrl_reg := tdm_ctrl_reg_wclk_fq.set tdm_ctrl_reg (member 1 val.mapping)
    tdm_cmax_h := assign_tdm_cmax_h (member 1 val.cmax) tdm_cmax_h
    tdm_cmax_l := assign_tdm_cmax_l (member 1 val.cmax) tdm_cmax_h tdm_cmax_l
  if ret = 0 then
    let w := ais25ba_write_reg ctx s AIS25BA_TDM_CTRL_REG [tdm_ctrl_reg] 1
    ret := w.1
    s := w.2
  if ret = 0 then
    reg0 := bytecpy reg0 tdm_cmax_h
    reg1 := bytecpy reg1 tdm_cmax_l
    let w := ais25ba_write_reg ctx s AIS25BA_TDM_CMAX_H [reg0, reg1] 2
    ret := w.1
    s := w.2
  return (ret, s)

/-- Function `ais25ba_bus_mode_get`.  Automatic variables: `tdm_ctrl_reg`,
`tdm_cmax_h`, `tdm_cmax_l`, `reg[0]`, `reg[1]`.  The five members of `*val`
are assigned whatever the status; each store reduces to the member's width. -/
def ais25ba_bus_mode_get {σ : Type} (ctx : Option (stmdev_ctx_t σ)) (s : σ)
    (stack : Nat → Nat) : Int × ais25ba_bus_mode_t × σ := Id.run do
  let mut tdm_ctrl_reg := stack 0
  let mut tdm_cmax_h := stack 1
  let mut tdm_cmax_l := stack 2
  let mut reg0 := stack 3
  let mut reg1 := stack 4
  let mut s := s
  let r := ais25ba_read_reg ctx s AIS25BA_TDM_CTRL_REG [tdm_ctrl_reg] 1
  let mut ret := r.1
  tdm_ctrl_reg := r.2.1.getD 0 tdm_ctrl_reg
  s := r.2.2
  if ret = 0 then
    let r := ais25ba_read_reg ctx s AIS25BA_TDM_CMAX_H [reg0, reg1] 2
    ret := r.1
    reg0 := r.2.1.getD 0 reg0
    reg1 := r.2.1.getD 1 reg1
    s := r.2.2
    tdm_cmax_h := bytecpy tdm_cmax_h reg0
    tdm_cmax_l := bytecpy tdm_cmax_l reg1
  let en := wrap 1 (c_not (tdm_ctrl_reg_tdm_pd.get tdm_ctrl_reg))
  let clk_pol := member 1 (tdm_ctrl_reg_data_valid.get tdm_ctrl_reg)
  let clk_edge := member 1 (tdm_ctrl_reg_delayed.get tdm_ctrl_reg)
  let mapping := member 1 (tdm_ctrl_reg_wclk_fq.get tdm_ctrl_reg)
  let mut cmax := member 1 (tdm_cmax_h_tdm_cmax.get tdm_cmax_h * 256)
  cmax := member 1 (cmax + tdm_cmax_l_tdm_cmax.get tdm_cmax_l)
  return (ret, ⟨en, clk_pol, clk_edge, mapping, cmax⟩, s)

/-- Function `ais25ba_mode_set`.  Automatic variables: `axes_ctrl_reg`,
`tdm_ctrl_reg`, `ctrl_reg`, `reg[0]`, `reg[1]`.  The three members are
assigned outside the `if (ret == 0)` blocks, as in the source. -/
def ais25ba_mode_set {σ : Type} (ctx : Option (stmdev_ctx_t σ)) (s : σ)
    (val : ais25ba_md_t) (stack : Nat → Nat) : Int × σ := Id.run do
  let mut axes_ctrl_reg := stack 0
  let mut tdm_ctrl_reg := stack 1
  let mut ctrl_reg := stack 2
  let mut reg0 := stack 3
  let mut reg1 := stack 4
  let mut s := s
  let r := ais25ba_read_reg ctx s AIS25BA_CTRL_REG_1 [ctrl_reg] 1
  let mut ret := r.1
  ctrl_reg := r.2.1.getD 0 ctrl_reg
  s := r.2.2
  if ret = 0 then
    let r := ais25ba_read_reg ctx s AIS25BA_TDM_CTRL_REG [reg0, reg1] 2
    ret := r.1
    reg0 := r.2.1.getD 0 reg0
    reg1 := r.2.1.getD 1 reg1
    s := r.2.2
    tdm_ctrl_reg := bytecpy tdm_ctrl_reg reg0
    axes_ctrl_reg := bytecpy axes_ctrl_reg reg1
  ctrl_reg := ctrl_reg_pd.set ctrl_reg ((val.odr.code % 256) &&& 0x01)
  tdm_ctrl_reg := tdm_ctrl_reg_wclk_fq.set tdm_ctrl_reg (((val.odr.code % 256) &&& 0x06) >>> 1)
  axes_ctrl_reg :=
    axes_ctrl_reg_odr_auto_en.set axes_ctrl_reg (((val.odr.code % 256) &&& 0x10) >>> 4)
  if ret = 0 then
    let w := ais25ba_write_reg ctx s AIS25BA_CTRL_REG_1 [ctrl_reg] 1
    ret := w.1
    s := w.2
  reg0 := bytecpy reg0 tdm_ctrl_reg
  reg1 := bytecpy reg1 axes_ctrl_reg
  if ret = 0 then
    let w := ais25ba_write_reg ctx s AIS25BA_TDM_CTRL_REG [reg0, reg1] 2
    ret := w.1
    s := w.2
  return (ret, s)

/-- The `switch` of `ais25ba_mode_get`: the enumerator whose value is the code,
`AIS25BA_XL_OFF` in the `default` case. -/
def mode_switch (code : Nat) : ais25ba_odr_t :=
  if code = ais25ba_odr_t.AIS25BA_XL_OFF.code then .AIS25BA_XL_OFF
  else if code = ais25ba_odr_t.AIS25BA_XL_8kHz.code then .AIS25BA_XL_8kHz
  else if code = ais25ba_odr_t.AIS25BA_XL_16kHz.code then .AIS25BA_XL_16kHz
  else if code = ais25ba_odr_t.AIS25BA_XL_24kHz.code then .AIS25BA_XL_24kHz
  else if code = ais25ba_odr_t.AIS25BA_XL_HW_SEL.code then .AIS25BA_XL_HW_SEL
  else .AIS25BA_XL_OFF

/-- Function `ais25ba_mode_get`.  Automatic variables: `axes_ctrl_reg`,
`tdm_ctrl_reg`, `ctrl_reg`, `reg[0]`, `reg[1]`. -/
def ais25ba_mode_get {σ : Type} (ctx : Option (stmdev_ctx_t σ)) (s : σ)
    (stack : Nat → Nat) : Int × ais25ba_md_t × σ := Id.run do
  let mut axes_ctrl_reg := stack 0
  let mut tdm_ctrl_reg := stack 1
  let mut ctrl_reg := stack 2
  let mut reg0 := stack 3
  let mut reg1 := stack 4
  let mut s := s
  let r := ais25ba_read_reg ctx s AIS25BA_CTRL_REG_1 [ctrl_reg] 1
  let mut ret := r.1
  ctrl_reg := r.2.1.getD 0 ctrl_reg
  s := r.2.2
  if ret = 0 then
    let r := ais25ba_read_reg ctx s AIS25BA_TDM_CTRL_REG [reg0, reg1] 2
    ret := r.1
    reg0 := r.2.1.getD 0 reg0
    reg1 := r.2.1.getD 1 reg1
    s := r.2.2
    tdm_ctrl_reg := bytecpy tdm_ctrl_reg reg0
    axes_ctrl_reg := bytecpy axes_ctrl_reg reg1
  let odr := mode_switch
    ((axes_ctrl_reg_odr_auto_en.get axes_ctrl_reg <<< 4)
      ||| (tdm_ctrl_reg_wclk_fq.get tdm_ctrl_reg <<< 1)
      ||| ctrl_reg_pd.get ctrl_reg)
  return (ret, ⟨odr⟩, s)

/-- Function `ais25ba_self_test_set`.  Automatic variable: `test_reg`. -/
def ais25ba_self_test_set {σ : Type} (ctx : Option (stmdev_ctx_t σ)) (s : σ) (val : Nat)
    (stack : Nat → Nat) : Int × σ := Id.run do
  let mut test_reg := stack 0
  let mut s := s
  let r := ais25ba_read_reg ctx s AIS25BA_TEST_REG [test_reg] 1
  let mut ret := r.1
  test_reg := r.2.1.getD 0 test_reg
  s := r.2.2
  if ret = 0 then
    test_reg := test_reg_st.set test_reg (val % 256)
    let w := ais25ba_write_reg ctx s AIS25BA_TEST_REG [test_reg] 1
    ret := w.1
    s := w.2
  return (ret, s)

/-- Function `ais25ba_self_test_get`.  Automatic variable: `test_reg`; `*val` is
assigned whatever the status of the read. -/
def ais25ba_self_test_get {σ : Type} (ctx : Option (stmdev_ctx_t σ)) (s : σ)
    (stack : Nat → Nat) : Int × Nat × σ := Id.run do
  let mut test_reg := stack 0
  let r := ais25ba_read_reg ctx s AIS25BA_TEST_REG [test_reg] 1
  test_reg := r.2.1.getD 0 test_reg
  return (r.1, test_reg_st.get test_reg, r.2.2)

/-! ## Transports used to state the properties -/

/-- Bytes `regs reg, regs (reg + 1), ...` of a register file, `len` of them. -/
def regfile_read (regs : Nat → Nat) (reg : Nat) : Nat → List Nat
  | 0 => []
  | n + 1 => regs reg :: regfile_read regs (reg + 1) n

/-- Register file after storing the first `len` bytes of `data` at `reg`,
`reg + 1`, ... -/
def regfile_write (regs : Nat → Nat) (reg : Nat) : List Nat → Nat → Nat → Nat
  | d :: ds, n + 1 => regfile_write (Function.update regs reg d) (reg + 1) ds n
  | _, _ => regs

/-- A transport that never fails and persists written bytes: the bus state is
the register file itself (address to byte); a read of `len` bytes at `reg`
returns the consecutive registers, a write stores the bytes. -/
def regfile : stmdev_ctx_t (Nat → Nat) :=
  ⟨fun regs reg data len => (0, regfile_write regs reg data len),
   fun regs reg _ len => (0, regfile_read regs reg len, regs)⟩

/-- A register file behind a transport whose call number `n` (reads and writes
counted together, from 0) returns the status `e` and transfers nothing; every
other call behaves as `regfile`.  The bus state is the number of calls made so
far and the register file. -/
def failing_at (n : Nat) (e : Int) : stmdev_ctx_t (Nat × (Nat → Nat)) :=
  ⟨fun st reg data len =>
     if st.1 = n then (e, (st.1 + 1, st.2))
     else (0, (st.1 + 1, regfile_write st.2 reg data len)),
   fun st reg data len =>
     if st.1 = n then (e, data, (st.1 + 1, st.2))
     else (0, regfile_read st.2 reg len, (st.1 + 1, st.2))⟩

/-- Kind of a transport call. -/
inductive BusOp where
  | read
  | write
deriving DecidableEq

/-- One transport call as seen on the function pointers: kind, first register,
length, the bytes written (for a read: the buffer after the call), the status
it returned and the bus state it left. -/
structure BusCall (σ : Type) where
  op : BusOp
  reg : Nat
  len : Nat
  data : List Nat
  status : Int
  after : σ

/-- Kind, register and length of a call. -/
def BusCall.sig {σ : Type} (c : BusCall σ) : BusOp × Nat × Nat := (c.op, c.reg, c.len)

/-- Any transport, with every call through either function pointer appended
to a log (a call-recording stub around `c`). -/
def traced {σ : Type} (c : stmdev_ctx_t σ) : stmdev_ctx_t (σ × List (BusCall σ)) :=
  ⟨fun st reg data len =>
     let w := c.write_reg st.1 reg data len
     (w.1, (w.2, st.2 ++ [⟨BusOp.write, reg, len, data, w.1, w.2⟩])),
   fun st reg data len =>
     let r := c.read_reg st.1 reg data len
     (r.1, r.2.1, (r.2.2, st.2 ++ [⟨BusOp.read, reg, len, r.2.1, r.1, r.2.2⟩]))⟩

/-- The transport calls of `ais25ba_bus_mode_set` when none fails, in order. -/
def bus_mode_set_calls : List (BusOp × Nat × Nat) :=
  [(BusOp.read, AIS25BA_TDM_CTRL_REG, 1), (BusOp.read, AIS25BA_TDM_CMAX_H, 2),
   (BusOp.write, AIS25BA_TDM_CTRL_REG, 1), (BusOp.write, AIS25BA_TDM_CMAX_H, 2)]

/-- The transport calls of `ais25ba_mode_set` when none fails, in order. -/
def mode_set_calls : List (BusOp × Nat × Nat) :=
  [(BusOp.read, AIS25BA_CTRL_REG_1, 1), (BusOp.read, AIS25BA_TDM_CTRL_REG, 2),
   (BusOp.write, AIS25BA_CTRL_REG_1, 1), (BusOp.write, AIS25BA_TDM_CTRL_REG, 2)]

/-- Abort-at-first-failure discipline of a run that started with an empty log
and ended with status `ret`, bus state `s` and log `log`:
the calls issued are an initial segment of `calls`, at least one call is
issued, a call that returns a non-zero status is the last one and its status
is the result, the bus is left as the last call left it, and a run in which
no call failed issued all of `calls` and returns 0. -/
def AbortsAtFirstFailure {σ : Type} (calls : List (BusOp × Nat × Nat)) (ret : Int) (s : σ)
    (log : List (BusCall σ)) : Prop :=
  log.map BusCall.sig = calls.take log.length
    ∧ log ≠ []
    ∧ (∀ (k : Nat) (c : BusCall σ), log[k]? = some c → c.status ≠ 0 →
        log.length = k + 1 ∧ ret = c.status)
    ∧ (∀ c : BusCall σ, log.getLast? = some c → s = c.after)
    ∧ ((∀ c ∈ log, c.status = 0) → log.length = calls.length ∧ ret = 0)

/-- Number of write calls in a log. -/
def write_count {σ : Type} (log : List (BusCall σ)) : Nat :=
  (log.filter (fun c => decide (c.op = BusOp.write))).length

/-! ## Sensitivity (`ais25ba_from_raw_to_mg`) -/

/-- The integer nearest to `y`, the even one of the two when `y` lies half way
between them. -/
def round_half_even (y : ℚ) : ℤ :=
  if y - ⌊y⌋ < 1 / 2 then ⌊y⌋
  else if 1 / 2 < y - ⌊y⌋ then ⌊y⌋ + 1
  else if ⌊y⌋ % 2 = 0 then ⌊y⌋ else ⌊y⌋ + 1

/-- Rounding to nearest, ties to even, to a binary floating-point number with
`p` significant bits: `x` is brought to the multiple of `2 ^ (e - (p - 1))`
nearest to it, `e` being the exponent of `x` (`2 ^ e ≤ |x| < 2 ^ (e + 1)`).
The exponent is not bounded; for `p = 24` this is the rounding of IEEE-754
binary32 on its normal range, which holds 0.122 and every product of a
non-zero 16-bit integer with the constant `0.122f`. -/
def round_nearest_even (p : Nat) (x : ℚ) : ℚ :=
  if x = 0 then 0
  else (round_half_even (x / 2 ^ (Int.log 2 |x| - ((p : Int) - 1))) : ℚ)
    * 2 ^ (Int.log 2 |x| - ((p : Int) - 1))

/-- Function `ais25ba_from_raw_to_mg`: `((float_t)lsb) * 0.122f`.  Floating-point
values are the rationals they denote and `rnd` is the rounding of the
platform's `float_t`: the constant `0.122f` is `rnd (122 / 1000)`, the
conversion of the 16-bit `lsb` is exact, and the product is rounded once. -/
def ais25ba_from_raw_to_mg (rnd : ℚ → ℚ) (lsb : Int) : ℚ :=
  rnd ((lsb : ℚ) * rnd (122 / 1000))

/-! ## Sample extraction (`ais25ba_data_get`) -/

/-- Conversion of a `uint16_t` word to `int16_t`: the word is kept when it is
below `2 ^ 15` and lowered by `2 ^ 16` otherwise (two's complement). -/
def to_int16 (x : Nat) : Int :=
  if x % 2 ^ 16 < 2 ^ 15 then ((x % 2 ^ 16 : Nat) : Int) else ((x % 2 ^ 16 : Nat) : Int) - 2 ^ 16

/-- Type `ais25ba_data_t` (its `xl` struct): the arrays `mg[3]` and `raw[3]`.
`F` stands for the C type `float_t`. -/
structure ais25ba_data_t (F : Type) where
  mg : List F
  raw : List Int
deriving DecidableEq

/-- The slot offset `ais25ba_data_get` selects: 0 when `md->tdm.mapping` equals
`PROPERTY_DISABLE`, 4 otherwise. -/
def data_get_offset (md : ais25ba_bus_mode_t) : Nat :=
  if member 1 md.mapping = PROPERTY_DISABLE then 0 else 4

/-- Function `ais25ba_data_get`.  The stream is the list of 16-bit words behind
`tdm_stream`; an access past its end has no defined result and gives `none`.
The conversion the loop calls is the parameter `from_raw_to_mg` (in the
driver: `ais25ba_from_raw_to_mg` with the rounding of `float_t`).  Both arrays
of `*data` are assigned in all three positions, in the order of the loop. -/
def ais25ba_data_get {F : Type} (from_raw_to_mg : Int → F) (tdm_stream : List Nat)
    (md : ais25ba_bus_mode_t) : Option (Int × ais25ba_data_t F) := do
  let offset := data_get_offset md
  let mut raw : List Int := []
  let mut mg : List F := []
  for i in [0, 1, 2] do
    let w ← tdm_stream[i + offset]?
    raw := raw ++ [to_int16 w]
    mg := mg ++ [from_raw_to_mg (to_int16 w)]
  return (0, ⟨mg, raw⟩)

/-! ## Build-time byte order of the register structs (`DRV_BYTE_ORDER`) -/

/-- The member names that occur in the register structs. -/
inductive Member where
  | not_used_01
  | not_used_02
  | st
  | tdm_cmax
  | pd
  | wclk_fq
  | mapping
  | data_valid
  | delayed
  | tdm_pd
  | odr_auto_en
deriving DecidableEq

/-- Position of member `m` in a declaration (names and widths in declaration
order) when members are allocated from bit `off` upward, the layout of
`DRV_LITTLE_ENDIAN`; `none` when the declaration has no such member. -/
def locate_le (m : Member) : List (Member × Nat) → Nat → Option BitField
  | [], _ => none
  | (n, w) :: rest, off => if n = m then some ⟨off, w⟩ else locate_le m rest (off + w)

/-- Position of member `m` in a declaration when members are allocated from
bit `top - 1` downward, the layout of `DRV_BIG_ENDIAN`. -/
def locate_be (m : Member) : List (Member × Nat) → Nat → Option BitField
  | [], _ => none
  | (n, w) :: rest, top => if n = m then some ⟨top - w, w⟩ else locate_be m rest (top - w)

/-- The two branches of a register struct declaration: the member list under
`#if DRV_BYTE_ORDER == DRV_LITTLE_ENDIAN` and the one under
`#elif DRV_BYTE_ORDER == DRV_BIG_ENDIAN`. -/
structure RegDecl where
  little : List (Member × Nat)
  big : List (Member × Nat)

/-- Both branches of `ais25ba_test_reg_t`. -/
def test_reg_decl : RegDecl :=
  ⟨[(.not_used_01, 3), (.st, 1), (.not_used_02, 4)],
   [(.not_used_02, 4), (.st, 1), (.not_used_01, 3)]⟩

/-- Both branches of `ais25ba_tdm_cmax_h_t`. -/
def tdm_cmax_h_decl : RegDecl :=
  ⟨[(.tdm_cmax, 4), (.not_used_01, 4)],
   [(.not_used_01, 4), (.tdm_cmax, 4)]⟩

/-- Both branches of `ais25ba_ctrl_reg_t`. -/
def ctrl_reg_decl : RegDecl :=
  ⟨[(.not_used_01, 5), (.pd, 1), (.not_used_02, 2)],
   [(.not_used_02, 2), (.pd, 1), (.not_used_01, 5)]⟩

/-- Both branches of `ais25ba_tdm_ctrl_reg_t`. -/
def tdm_ctrl_reg_decl : RegDecl :=
  ⟨[(.not_used_01, 1), (.wclk_fq, 2), (.not_used_02, 1), (.mapping, 1), (.data_valid, 1),
    (.delayed, 1), (.tdm_pd, 1)],
   [(.tdm_pd, 1), (.delayed, 1), (.data_valid, 1), (.mapping, 1), (.not_used_02, 1),
    (.wclk_fq, 2), (.not_used_01, 1)]⟩

/-- Both branches of `ais25ba_axes_ctrl_reg_t`. -/
def axes_ctrl_reg_decl : RegDecl :=
  ⟨[(.odr_auto_en, 1), (.not_used_01, 7)],
   [(.not_used_01, 7), (.odr_auto_en, 1)]⟩

/-- The register structs that have a bit-field description with two branches. -/
def register_decls : List RegDecl :=
  [test_reg_decl, tdm_cmax_h_decl, ctrl_reg_decl, tdm_ctrl_reg_decl, axes_ctrl_reg_decl]

/-! ## Bit-field algebra -/

theorem BitField.get_set_same (f : BitField) (b v : Nat) :
    f.get (f.set b v) = v % 2 ^ f.width := by
  unfold BitField.get BitField.set
  have hP : 0 < 2 ^ f.off := Nat.pos_pow_of_pos _ (by norm_num)
  have e : b / 2 ^ (f.off + f.width) * 2 ^ (f.off + f.width) + v % 2 ^ f.width * 2 ^ f.off
      + b % 2 ^ f.off
      = b % 2 ^ f.off + 2 ^ f.off * (b / 2 ^ (f.off + f.width) * 2 ^ f.width + v % 2 ^ f.width) := by
    rw [pow_add]; ring
  rw [e, Nat.add_mul_div_left _ _ hP, Nat.div_eq_of_lt (Nat.mod_lt _ hP), Nat.zero_add,
    Nat.mul_comm, Nat.mul_add_mod, Nat.mod_mod]

theorem BitField.set_div_above (f : BitField) (b v : Nat) :
    f.set b v / 2 ^ (f.off + f.width) = b / 2 ^ (f.off + f.width) := by
  unfold BitField.set
  have hP : 0 < 2 ^ f.off := Nat.pos_pow_of_pos _ (by norm_num)
  have hW : 0 < 2 ^ f.width := Nat.pos_pow_of_pos _ (by norm_num)
  have hPW : 0 < 2 ^ (f.off + f.width) := Nat.pos_pow_of_pos _ (by norm_num)
  have hlt : v % 2 ^ f.width * 2 ^ f.off + b % 2 ^ f.off < 2 ^ (f.off + f.width) := by
    have h1 : v % 2 ^ f.width + 1 ≤ 2 ^ f.width := Nat.mod_lt _ hW
    have h2 : b % 2 ^ f.off < 2 ^ f.off := Nat.mod_lt _ hP
    calc v % 2 ^ f.width * 2 ^ f.off + b % 2 ^ f.off
        < v % 2 ^ f.width * 2 ^ f.off + 2 ^ f.off := by omega
      _ = (v % 2 ^ f.width + 1) * 2 ^ f.off := by ring
      _ ≤ 2 ^ f.width * 2 ^ f.off := Nat.mul_le_mul_right _ h1
      _ = 2 ^ (f.off + f.width) := by rw [pow_add]; ring
  rw [Nat.add_assoc, Nat.add_comm, Nat.add_mul_div_right _ _ hPW, Nat.div_eq_of_lt hlt,
    Nat.zero_add]

theorem BitField.set_mod_below (f : BitField) (b v : Nat) :
    f.set b v % 2 ^ f.off = b % 2 ^ f.off := by
  unfold BitField.set
  have e : b / 2 ^ (f.off + f.width) * 2 ^ (f.off + f.width) + v % 2 ^ f.width * 2 ^ f.off
      + b % 2 ^ f.off
      = b % 2 ^ f.off + 2 ^ f.off * (b / 2 ^ (f.off + f.width) * 2 ^ f.width + v % 2 ^ f.width) := by
    rw [pow_add]; ring
  rw [e, Nat.add_mul_mod_self_left, Nat.mod_mod]

/-- Assigning a member leaves every member apart from it as it was. -/
theorem BitField.get_set_apart (g f : BitField) (b v : Nat) (h : g.Apart f) :
    g.get (f.set b v) = g.get b := by
  rcases h with h | h
  · obtain ⟨k, hk⟩ := Nat.exists_eq_add_of_le h
    unfold BitField.get
    rw [← Nat.mod_mul_left_div_self, ← Nat.mod_mul_left_div_self (m := b)]
    have hd : 2 ^ g.width * 2 ^ g.off ∣ 2 ^ f.off := by
      rw [hk, ← pow_add, Nat.add_comm g.width]
      exact pow_dvd_pow 2 (Nat.le_add_right _ _)
    rw [← Nat.mod_mod_of_dvd (f.set b v) hd, f.set_mod_below, Nat.mod_mod_of_dvd b hd]
  · obtain ⟨k, hk⟩ := Nat.exists_eq_add_of_le h
    unfold BitField.get
    rw [hk, pow_add, ← Nat.div_div_eq_div_mul, ← Nat.div_div_eq_div_mul, f.set_div_above]

/-! ## The register-file transport on one and two bytes -/

theorem regfile_read_one (regs : Nat → Nat) (reg : Nat) :
    regfile_read regs reg 1 = [regs reg] := rfl

theorem regfile_read_two (regs : Nat → Nat) (reg : Nat) :
    regfile_read regs reg 2 = [regs reg, regs (reg + 1)] := rfl

theorem regfile_write_one (regs : Nat → Nat) (reg x : Nat) :
    regfile_write regs reg [x] 1 = Function.update regs reg x := rfl

theorem regfile_write_two (regs : Nat → Nat) (reg x y : Nat) :
    regfile_write regs reg [x, y] 2
      = Function.update (Function.update regs reg x) (reg + 1) y := rfl

/-! ## The `switch` of `ais25ba_mode_get` -/

theorem mode_switch_code (r : ais25ba_odr_t) : mode_switch r.code = r := by
  cases r <;> rfl

theorem mode_switch_default (code : Nat) (h : ∀ r : ais25ba_odr_t, r.code ≠ code) :
    mode_switch code = ais25ba_odr_t.AIS25BA_XL_OFF := by
  have h1 := h .AIS25BA_XL_OFF
  have h2 := h .AIS25BA_XL_8kHz
  have h3 := h .AIS25BA_XL_16kHz
  have h4 := h .AIS25BA_XL_24kHz
  have h5 := h .AIS25BA_XL_HW_SEL
  simp only [mode_switch]
  simp [Ne.symm h1, Ne.symm h2, Ne.symm h3, Ne.symm h4, Ne.symm h5]

/-- Bit positions of the members of the register structs: `off` is the lowest
bit of the member, `width` its number of bits. -/
theorem register_layout :
    test_reg_st = ⟨3, 1⟩
      ∧ tdm_cmax_h_tdm_cmax = ⟨0, 4⟩ ∧ tdm_cmax_h_not_used_01 = ⟨4, 4⟩
      ∧ tdm_cmax_l_tdm_cmax = ⟨0, 8⟩
      ∧ ctrl_reg_not_used_01 = ⟨0, 5⟩ ∧ ctrl_reg_pd = ⟨5, 1⟩ ∧ ctrl_reg_not_used_02 = ⟨6, 2⟩
      ∧ tdm_ctrl_reg_not_used_01 = ⟨0, 1⟩ ∧ tdm_ctrl_reg_wclk_fq = ⟨1, 2⟩
      ∧ tdm_ctrl_reg_not_used_02 = ⟨3, 1⟩ ∧ tdm_ctrl_reg_mapping = ⟨4, 1⟩
      ∧ tdm_ctrl_reg_data_valid = ⟨5, 1⟩ ∧ tdm_ctrl_reg_delayed = ⟨6, 1⟩
      ∧ tdm_ctrl_reg_tdm_pd = ⟨7, 1⟩
      ∧ axes_ctrl_reg_odr_auto_en = ⟨0, 1⟩ ∧ axes_ctrl_reg_not_used_01 = ⟨1, 7⟩ := by
  decide

/-! ## Bus mode: set then get (C1) -/

/-- Claim C1, at an input where the code departs from it: a caller that asks
for the clock-divider-max 300 assigns 300 to the one-bit member
`val->tdm.cmax`, which keeps 0.  With that bus mode (enable 1) and all
registers 0, `ais25ba_bus_mode_set` returns 0 and leaves 0 in both divider
registers, where 300 = 1 * 256 + 44 asks for the high nibble 1 and the low
byte 44, and the following `ais25ba_bus_mode_get` returns 0 and the
clock-divider-max 0, not 300.  The two assignments of the function would not
split 300 either: they give the high nibble 1 and the low byte
43 = (300 - 1) mod 256. -/
theorem bus_mode_roundtrip_loses_cmax :
    member 1 300 = 0
      ∧ (ais25ba_bus_mode_set (some regfile) (fun _ => 0) ⟨1, 0, 0, 0, member 1 300⟩
          (fun _ => 0)).1 = 0
      ∧ (ais25ba_bus_mode_set (some regfile) (fun _ => 0) ⟨1, 0, 0, 0, member 1 300⟩
          (fun _ => 0)).2 AIS25BA_TDM_CMAX_H = 0
      ∧ (ais25ba_bus_mode_set (some regfile) (fun _ => 0) ⟨1, 0, 0, 0, member 1 300⟩
          (fun _ => 0)).2 AIS25BA_TDM_CMAX_L = 0
      ∧ (ais25ba_bus_mode_get (some regfile)
          (ais25ba_bus_mode_set (some regfile) (fun _ => 0) ⟨1, 0, 0, 0, member 1 300⟩
            (fun _ => 0)).2
          (fun _ => 0)).1 = 0
      ∧ (ais25ba_bus_mode_get (some regfile)
          (ais25ba_bus_mode_set (some regfile) (fun _ => 0) ⟨1, 0, 0, 0, member 1 300⟩
            (fun _ => 0)).2
          (fun _ => 0)).2.1 = ⟨1, 0, 0, 0, 0⟩
      ∧ (ais25ba_bus_mode_get (some regfile)
          (ais25ba_bus_mode_set (some regfile) (fun _ => 0) ⟨1, 0, 0, 0, member 1 300⟩
            (fun _ => 0)).2
          (fun _ => 0)).2.1.cmax ≠ 300
      ∧ assign_tdm_cmax_h 300 0 = 1
      ∧ assign_tdm_cmax_l 300 (assign_tdm_cmax_h 300 0) 0 = 43 := by
  decide

/-- Set then get on the values the struct can hold (each of the five members,
clock-divider-max included, 0 or 1): for every initial register contents, on
the transport that never fails and persists written bytes,
`ais25ba_bus_mode_set` returns 0 and a following `ais25ba_bus_mode_get`
returns 0 and the same five members. -/
theorem bus_mode_set_get_roundtrip (m : ais25ba_bus_mode_t) (regs stack stack2 : Nat → Nat)
    (hen : m.en < 2) (hpol : m.clk_pol < 2) (hedge : m.clk_edge < 2) (hmap : m.mapping < 2)
    (hcmax : m.cmax < 2) :
    ∃ regs2 : Nat → Nat,
      ais25ba_bus_mode_set (some regfile) regs m stack = (0, regs2)
        ∧ ais25ba_bus_mode_get (some regfile) regs2 stack2 = (0, m, regs2) := by
  refine ⟨(ais25ba_bus_mode_set (some regfile) regs m stack).2, ?_, ?_⟩
  · simp [ais25ba_bus_mode_set, ais25ba_read_reg, ais25ba_write_reg, regfile, Id.run]
  · obtain ⟨en, pol, edge, mapping, cmax⟩ := m
    simp only [] at hen hpol hedge hmap hcmax
    simp (disch := decide) [ais25ba_bus_mode_set, assign_tdm_cmax_h, assign_tdm_cmax_l,
      ais25ba_bus_mode_get, ais25ba_read_reg,
      ais25ba_write_reg, regfile, regfile_read_one, regfile_read_two, regfile_write_one,
      regfile_write_two, Id.run, bytecpy, AIS25BA_TDM_CTRL_REG, AIS25BA_TDM_CMAX_H,
      Function.update, BitField.get_set_same, BitField.get_set_apart,
      List.getElem?_cons_zero, List.getD_cons_zero, List.getD_cons_succ]
    refine ⟨?_, ?_, ?_, ?_, ?_⟩
    · interval_cases en <;> decide
    · interval_cases pol <;> decide
    · interval_cases edge <;> decide
    · interval_cases mapping <;> decide
    · interval_cases cmax <;> decide

/-- Witness of `bus_mode_set_get_roundtrip`: the bus mode (1, 0, 1, 1, 1) on a
register file holding 0xFF everywhere. -/
theorem bus_mode_set_get_roundtrip_witness :
    ((1 : Nat) < 2 ∧ (0 : Nat) < 2) ∧
    ∃ regs2 : Nat → Nat,
      ais25ba_bus_mode_set (some regfile) (fun _ => 0xFF) ⟨1, 0, 1, 1, 1⟩ (fun _ => 0)
          = (0, regs2)
        ∧ ais25ba_bus_mode_get (some regfile) regs2 (fun _ => 0) = (0, ⟨1, 0, 1, 1, 1⟩, regs2) :=
  ⟨by decide, bus_mode_set_get_roundtrip ⟨1, 0, 1, 1, 1⟩ (fun _ => 0xFF) (fun _ => 0)
    (fun _ => 0) (by decide) (by decide) (by decide) (by decide) (by decide)⟩

/-! ## Output-rate mode: set then get, and decode (C2, C3) -/

/-- Claim C2: for each of the five enumerators of the output-rate mode and every
initial register contents, on the transport that never fails and persists
written bytes, `ais25ba_mode_set` returns 0 and a following `ais25ba_mode_get`
returns 0 and the same mode. -/
theorem mode_set_get_roundtrip (r : ais25ba_odr_t) (regs stack stack2 : Nat → Nat) :
    ∃ regs2 : Nat → Nat,
      ais25ba_mode_set (some regfile) regs ⟨r⟩ stack = (0, regs2)
        ∧ ais25ba_mode_get (some regfile) regs2 stack2 = (0, ⟨r⟩, regs2) := by
  refine ⟨(ais25ba_mode_set (some regfile) regs ⟨r⟩ stack).2, ?_, ?_⟩
  · simp [ais25ba_mode_set, ais25ba_read_reg, ais25ba_write_reg, regfile, Id.run]
  · simp (disch := decide) [ais25ba_mode_set, ais25ba_mode_get, ais25ba_read_reg,
      ais25ba_write_reg, regfile, regfile_read_one, regfile_read_two, regfile_write_one,
      regfile_write_two, Id.run, bytecpy, AIS25BA_TDM_CTRL_REG, AIS25BA_CTRL_REG_1,
      Function.update, BitField.get_set_same, BitField.get_set_apart,
      List.getElem?_cons_zero, List.getD_cons_zero, List.getD_cons_succ]
    cases r <;> decide

/-- Claim C3: when the read of register 0x26 (1 byte) and the read of registers
0x2E, 0x2F (2 bytes) succeed and deliver `r26`, `r2E`, `r2F`, `ais25ba_mode_get`
returns 0 and the mode obtained from the code
`(odr_auto_en << 4) | (wclk_fq << 1) | pd`, with `pd` bit 5 of `r26`, `wclk_fq`
bits 1-2 of `r2E` and `odr_auto_en` bit 0 of `r2F`: the enumerator whose value
is that code when there is one, `AIS25BA_XL_OFF` otherwise. -/
theorem mode_get_reassembles_code {σ : Type} (ctx : stmdev_ctx_t σ) (s s1 s2 : σ)
    (stack : Nat → Nat) (r26 r2E r2F : Nat)
    (h1 : ctx.read_reg s AIS25BA_CTRL_REG_1 [stack 2] 1 = (0, [r26], s1))
    (h2 : ctx.read_reg s1 AIS25BA_TDM_CTRL_REG [stack 3, stack 4] 2 = (0, [r2E, r2F], s2)) :
    ∃ md : ais25ba_md_t,
      ais25ba_mode_get (some ctx) s stack = (0, md, s2)
        ∧ (∀ r : ais25ba_odr_t,
            r.code = ((axes_ctrl_reg_odr_auto_en.get r2F <<< 4)
              ||| (tdm_ctrl_reg_wclk_fq.get r2E <<< 1) ||| ctrl_reg_pd.get r26) → md.odr = r)
        ∧ ((∀ r : ais25ba_odr_t,
            r.code ≠ ((axes_ctrl_reg_odr_auto_en.get r2F <<< 4)
              ||| (tdm_ctrl_reg_wclk_fq.get r2E <<< 1) ||| ctrl_reg_pd.get r26)) →
            md.odr = ais25ba_odr_t.AIS25BA_XL_OFF)
        ∧ ctrl_reg_pd.get r26 = r26 / 2 ^ 5 % 2
        ∧ tdm_ctrl_reg_wclk_fq.get r2E = r2E / 2 ^ 1 % 2 ^ 2
        ∧ axes_ctrl_reg_odr_auto_en.get r2F = r2F / 2 ^ 0 % 2 := by
  refine ⟨⟨mode_switch ((axes_ctrl_reg_odr_auto_en.get r2F <<< 4)
              ||| (tdm_ctrl_reg_wclk_fq.get r2E <<< 1) ||| ctrl_reg_pd.get r26)⟩,
    ?_, ?_, ?_, rfl, rfl, rfl⟩
  · simp [ais25ba_mode_get, ais25ba_read_reg, Id.run, h1, h2, bytecpy]
  · intro r hr
    rw [← hr]
    exact mode_switch_code r
  · intro h
    exact mode_switch_default _ h

/-- Witness of `mode_get_reassembles_code`: the register-file transport with
0x04 in register 0x2E (code 4, 24 kHz) and 0 elsewhere. -/
theorem mode_get_reassembles_code_witness :
    (regfile.read_reg (fun a => if a = 0x2E then 0x04 else 0) AIS25BA_CTRL_REG_1 [0] 1
        = (0, [0], fun a => if a = 0x2E then 0x04 else 0)
      ∧ regfile.read_reg (fun a => if a = 0x2E then 0x04 else 0) AIS25BA_TDM_CTRL_REG [0, 0] 2
        = (0, [0x04, 0], fun a => if a = 0x2E then 0x04 else 0)) ∧
    ∃ md : ais25ba_md_t,
      ais25ba_mode_get (some regfile) (fun a => if a = 0x2E then 0x04 else 0) (fun _ => 0)
          = (0, md, fun a => if a = 0x2E then 0x04 else 0)
        ∧ (∀ r : ais25ba_odr_t,
            r.code = ((axes_ctrl_reg_odr_auto_en.get 0 <<< 4)
              ||| (tdm_ctrl_reg_wclk_fq.get 0x04 <<< 1) ||| ctrl_reg_pd.get 0) → md.odr = r)
        ∧ ((∀ r : ais25ba_odr_t,
            r.code ≠ ((axes_ctrl_reg_odr_auto_en.get 0 <<< 4)
              ||| (tdm_ctrl_reg_wclk_fq.get 0x04 <<< 1) ||| ctrl_reg_pd.get 0)) →
            md.odr = ais25ba_odr_t.AIS25BA_XL_OFF)
        ∧ ctrl_reg_pd.get 0 = 0 / 2 ^ 5 % 2
        ∧ tdm_ctrl_reg_wclk_fq.get 0x04 = 0x04 / 2 ^ 1 % 2 ^ 2
        ∧ axes_ctrl_reg_odr_auto_en.get 0 = 0 / 2 ^ 0 % 2 :=
  ⟨⟨rfl, rfl⟩,
    mode_get_reassembles_code regfile (fun a => if a = 0x2E then 0x04 else 0) _ _ (fun _ => 0)
      0 0x04 0 rfl rfl⟩

/-! ## Null handle (C4) -/

/-- Claim C4, at the input where the code departs from it: `ais25ba_id_get`
called with a null handle returns 0, not the invalid-context status -1; it
leaves `*val` and the bus untouched. -/
theorem id_get_null_handle_returns_zero {σ : Type} (s : σ) (val : ais25ba_id_t) :
    ais25ba_id_get (none : Option (stmdev_ctx_t σ)) s val = (0, val, s) := rfl

/-- The other eight register operations return -1 on a null handle and leave
the bus state as it was. -/
theorem null_handle_invalid_context {σ : Type} (s : σ) (reg len val : Nat) (data : List Nat)
    (bus : ais25ba_bus_mode_t) (md : ais25ba_md_t) (stack : Nat → Nat) :
    ais25ba_read_reg (none : Option (stmdev_ctx_t σ)) s reg data len = (-1, data, s)
      ∧ ais25ba_write_reg (none : Option (stmdev_ctx_t σ)) s reg data len = (-1, s)
      ∧ (ais25ba_bus_mode_get (none : Option (stmdev_ctx_t σ)) s stack).1 = -1
      ∧ (ais25ba_bus_mode_get (none : Option (stmdev_ctx_t σ)) s stack).2.2 = s
      ∧ ais25ba_bus_mode_set (none : Option (stmdev_ctx_t σ)) s bus stack = (-1, s)
      ∧ (ais25ba_mode_get (none : Option (stmdev_ctx_t σ)) s stack).1 = -1
      ∧ (ais25ba_mode_get (none : Option (stmdev_ctx_t σ)) s stack).2.2 = s
      ∧ ais25ba_mode_set (none : Option (stmdev_ctx_t σ)) s md stack = (-1, s)
      ∧ (ais25ba_self_test_get (none : Option (stmdev_ctx_t σ)) s stack).1 = -1
      ∧ (ais25ba_self_test_get (none : Option (stmdev_ctx_t σ)) s stack).2.2 = s
      ∧ ais25ba_self_test_set (none : Option (stmdev_ctx_t σ)) s val stack = (-1, s) :=
  ⟨rfl, rfl, rfl, rfl, rfl, rfl, rfl, rfl, rfl, rfl, rfl⟩

/-! ## Abort at the first failing transport call (C5) -/

set_option maxRecDepth 8000 in
/-- Claim C5: on any transport, from any bus state and for any argument, the
calls of `ais25ba_bus_mode_set` are an initial segment of read(0x2E, 1),
read(0x24, 2), write(0x2E, 1), write(0x24, 2) and those of `ais25ba_mode_set`
an initial segment of read(0x26, 1), read(0x2E, 2), write(0x26, 1),
write(0x2E, 2); a call that returns a non-zero status is the last call issued,
its status is the result of the operation, and the bus is left in the state
that call left it in. -/
theorem set_aborts_at_first_failure {σ : Type} (ctx : stmdev_ctx_t σ) (s : σ)
    (bus : ais25ba_bus_mode_t) (md : ais25ba_md_t) (stack : Nat → Nat) :
    AbortsAtFirstFailure bus_mode_set_calls
        (ais25ba_bus_mode_set (some (traced ctx)) (s, []) bus stack).1
        (ais25ba_bus_mode_set (some (traced ctx)) (s, []) bus stack).2.1
        (ais25ba_bus_mode_set (some (traced ctx)) (s, []) bus stack).2.2
      ∧ AbortsAtFirstFailure mode_set_calls
        (ais25ba_mode_set (some (traced ctx)) (s, []) md stack).1
        (ais25ba_mode_set (some (traced ctx)) (s, []) md stack).2.1
        (ais25ba_mode_set (some (traced ctx)) (s, []) md stack).2.2 := by
  constructor
  · simp only [ais25ba_bus_mode_set, ais25ba_read_reg, ais25ba_write_reg, traced, Id.run,
      AbortsAtFirstFailure, bus_mode_set_calls, bytecpy]
    split_ifs
    all_goals simp [*, BusCall.sig]
    all_goals try constructor
    all_goals try
      intro k c hk hc
      rcases k with _ | _ | _ | _ | k
      all_goals simp at hk
      all_goals (subst hk; simp_all)
    all_goals simp_all
  · simp only [ais25ba_mode_set, ais25ba_read_reg, ais25ba_write_reg, traced, Id.run,
      AbortsAtFirstFailure, mode_set_calls, bytecpy]
    split_ifs
    all_goals simp [*, BusCall.sig]
    all_goals try constructor
    all_goals try
      intro k c hk hc
      rcases k with _ | _ | _ | _ | k
      all_goals simp at hk
      all_goals (subst hk; simp_all)
    all_goals simp_all

/-- The abort on a concrete transport: when the second write (call number 3)
of `ais25ba_bus_mode_set` returns 7, the operation returns 7 after four calls
and register 0x2E keeps the byte 0x42 the first write stored; when the first
write (call number 2) returns 7, the operation returns 7 after three calls and
no register has changed. -/
theorem bus_mode_set_abort_example :
    (ais25ba_bus_mode_set (some (traced (failing_at 3 7))) ((0, fun _ => 0), [])
        ⟨1, 0, 1, 1, 1⟩ (fun _ => 0)).1 = 7
      ∧ ((ais25ba_bus_mode_set (some (traced (failing_at 3 7))) ((0, fun _ => 0), [])
        ⟨1, 0, 1, 1, 1⟩ (fun _ => 0)).2.2.map BusCall.sig) = bus_mode_set_calls
      ∧ (ais25ba_bus_mode_set (some (traced (failing_at 3 7))) ((0, fun _ => 0), [])
        ⟨1, 0, 1, 1, 1⟩ (fun _ => 0)).2.1.2 AIS25BA_TDM_CTRL_REG = 0x42
      ∧ (ais25ba_bus_mode_set (some (traced (failing_at 3 7))) ((0, fun _ => 0), [])
        ⟨1, 0, 1, 1, 1⟩ (fun _ => 0)).2.1.2 AIS25BA_TDM_CMAX_L = 0
      ∧ (ais25ba_bus_mode_set (some (traced (failing_at 2 7))) ((0, fun _ => 0), [])
        ⟨1, 0, 1, 1, 1⟩ (fun _ => 0)).1 = 7
      ∧ ((ais25ba_bus_mode_set (some (traced (failing_at 2 7))) ((0, fun _ => 0), [])
        ⟨1, 0, 1, 1, 1⟩ (fun _ => 0)).2.2.map BusCall.sig) = bus_mode_set_calls.take 3
      ∧ (ais25ba_bus_mode_set (some (traced (failing_at 2 7))) ((0, fun _ => 0), [])
        ⟨1, 0, 1, 1, 1⟩ (fun _ => 0)).2.1.2 AIS25BA_TDM_CTRL_REG = 0 := by
  decide

/-! ## Bus mode: decode (C6, C7) -/

/-- Claim C6, at an input where the code departs from it: with 0x01 in register
0x24 and 0x02 in register 0x25, `ais25ba_bus_mode_get` returns 0 and the
clock-divider-max 0, while high-nibble * 256 + low-byte is 258. -/
theorem bus_mode_get_cmax_is_one_bit :
    (ais25ba_bus_mode_get (some regfile)
        (fun a => if a = 0x24 then 0x01 else if a = 0x25 then 0x02 else 0) (fun _ => 0)).1 = 0
      ∧ (ais25ba_bus_mode_get (some regfile)
        (fun a => if a = 0x24 then 0x01 else if a = 0x25 then 0x02 else 0) (fun _ => 0)).2.1.cmax
          = 0
      ∧ tdm_cmax_h_tdm_cmax.get 0x01 * 256 + 0x02 = 258 := by
  decide

/-- Claim C7, as stated, fails: with 0x04 in register 0x2E the 2-bit `wclk_fq`
field holds 2, and `ais25ba_bus_mode_get` returns 0 with slot-mapping 0. -/
theorem bus_mode_get_mapping_not_wclk_fq :
    (ais25ba_bus_mode_get (some regfile) (fun a => if a = 0x2E then 0x04 else 0)
        (fun _ => 0)).1 = 0
      ∧ tdm_ctrl_reg_wclk_fq.get 0x04 = 2
      ∧ (ais25ba_bus_mode_get (some regfile) (fun a => if a = 0x2E then 0x04 else 0)
        (fun _ => 0)).2.1.mapping = 0
      ∧ (ais25ba_bus_mode_get (some regfile) (fun a => if a = 0x2E then 0x04 else 0)
        (fun _ => 0)).2.1.mapping ≠ tdm_ctrl_reg_wclk_fq.get 0x04 := by
  decide

/-- Claim C7, amended: when the read of register 0x2E (1 byte) and the read of
registers 0x24, 0x25 (2 bytes) succeed and deliver `r2E`, `r24`, `r25`,
`ais25ba_bus_mode_get` returns 0 with enable = NOT `tdm_pd` (bit 7 of `r2E`),
clock-polarity = `data_valid` (bit 5), clock-edge = `delayed` (bit 6) and
slot-mapping = the least significant bit of the 2-bit `wclk_fq` field
(bit 1 of `r2E`). -/
theorem bus_mode_get_decodes_ctrl {σ : Type} (ctx : stmdev_ctx_t σ) (s s1 s2 : σ)
    (stack : Nat → Nat) (r2E r24 r25 : Nat)
    (h1 : ctx.read_reg s AIS25BA_TDM_CTRL_REG [stack 0] 1 = (0, [r2E], s1))
    (h2 : ctx.read_reg s1 AIS25BA_TDM_CMAX_H [stack 3, stack 4] 2 = (0, [r24, r25], s2)) :
    ∃ m : ais25ba_bus_mode_t,
      ais25ba_bus_mode_get (some ctx) s stack = (0, m, s2)
        ∧ m.en = 1 - tdm_ctrl_reg_tdm_pd.get r2E
        ∧ m.clk_pol = tdm_ctrl_reg_data_valid.get r2E
        ∧ m.clk_edge = tdm_ctrl_reg_delayed.get r2E
        ∧ m.mapping = tdm_ctrl_reg_wclk_fq.get r2E % 2
        ∧ tdm_ctrl_reg_tdm_pd.get r2E = r2E / 2 ^ 7 % 2
        ∧ tdm_ctrl_reg_data_valid.get r2E = r2E / 2 ^ 5 % 2
        ∧ tdm_ctrl_reg_delayed.get r2E = r2E / 2 ^ 6 % 2
        ∧ tdm_ctrl_reg_wclk_fq.get r2E = r2E / 2 ^ 1 % 2 ^ 2 := by
  refine ⟨(ais25ba_bus_mode_get (some ctx) s stack).2.1, ?_, ?_, ?_, ?_, ?_, rfl, rfl, rfl, rfl⟩
  · simp [ais25ba_bus_mode_get, ais25ba_read_reg, Id.run, h1, h2, bytecpy]
  all_goals
    simp [ais25ba_bus_mode_get, ais25ba_read_reg, Id.run, h1, h2, bytecpy, member, wrap, c_not,
      BitField.get, tdm_ctrl_reg_tdm_pd, tdm_ctrl_reg_data_valid, tdm_ctrl_reg_delayed,
      tdm_ctrl_reg_wclk_fq, fieldAt, ais25ba_tdm_ctrl_reg_t]
  all_goals omega

/-- Witness of `bus_mode_get_decodes_ctrl`: the register-file transport with
0xE6 in register 0x2E and 0 elsewhere. -/
theorem bus_mode_get_decodes_ctrl_witness :
    (regfile.read_reg (fun a => if a = 0x2E then 0xE6 else 0) AIS25BA_TDM_CTRL_REG [0] 1
        = (0, [0xE6], fun a => if a = 0x2E then 0xE6 else 0)
      ∧ regfile.read_reg (fun a => if a = 0x2E then 0xE6 else 0) AIS25BA_TDM_CMAX_H [0, 0] 2
        = (0, [0, 0], fun a => if a = 0x2E then 0xE6 else 0)) ∧
    ∃ m : ais25ba_bus_mode_t,
      ais25ba_bus_mode_get (some regfile) (fun a => if a = 0x2E then 0xE6 else 0) (fun _ => 0)
          = (0, m, fun a => if a = 0x2E then 0xE6 else 0)
        ∧ m.en = 1 - tdm_ctrl_reg_tdm_pd.get 0xE6
        ∧ m.clk_pol = tdm_ctrl_reg_data_valid.get 0xE6
        ∧ m.clk_edge = tdm_ctrl_reg_delayed.get 0xE6
        ∧ m.mapping = tdm_ctrl_reg_wclk_fq.get 0xE6 % 2
        ∧ tdm_ctrl_reg_tdm_pd.get 0xE6 = 0xE6 / 2 ^ 7 % 2
        ∧ tdm_ctrl_reg_data_valid.get 0xE6 = 0xE6 / 2 ^ 5 % 2
        ∧ tdm_ctrl_reg_delayed.get 0xE6 = 0xE6 / 2 ^ 6 % 2
        ∧ tdm_ctrl_reg_wclk_fq.get 0xE6 = 0xE6 / 2 ^ 1 % 2 ^ 2 :=
  ⟨⟨rfl, rfl⟩,
    bus_mode_get_decodes_ctrl regfile (fun a => if a = 0x2E then 0xE6 else 0) _ _ (fun _ => 0)
      0xE6 0 0 rfl rfl⟩

/-! ## Read-modify-write frames (C8, C9) -/

/-- Claim C8: for every bus mode and every initial register contents, on the
persisting transport `ais25ba_bus_mode_set` returns 0 and leaves in register
0x2E the members `not_used_01` (bit 0), `not_used_02` (bit 3) and `mapping`
(bit 4) as they were, in register 0x24 the upper four bits (`not_used_01`) as
they were, and every register other than 0x2E, 0x24 and 0x25 as it was; its
write calls are write(0x2E, 1) and write(0x24, 2) and no other. -/
theorem bus_mode_set_frame (m : ais25ba_bus_mode_t) (regs stack : Nat → Nat) :
    ∃ (regs2 : Nat → Nat) (log : List (BusCall (Nat → Nat))),
      ais25ba_bus_mode_set (some (traced regfile)) (regs, []) m stack = (0, regs2, log)
        ∧ tdm_ctrl_reg_not_used_01.get (regs2 AIS25BA_TDM_CTRL_REG)
            = tdm_ctrl_reg_not_used_01.get (regs AIS25BA_TDM_CTRL_REG)
        ∧ tdm_ctrl_reg_not_used_02.get (regs2 AIS25BA_TDM_CTRL_REG)
            = tdm_ctrl_reg_not_used_02.get (regs AIS25BA_TDM_CTRL_REG)
        ∧ tdm_ctrl_reg_mapping.get (regs2 AIS25BA_TDM_CTRL_REG)
            = tdm_ctrl_reg_mapping.get (regs AIS25BA_TDM_CTRL_REG)
        ∧ tdm_cmax_h_not_used_01.get (regs2 AIS25BA_TDM_CMAX_H)
            = tdm_cmax_h_not_used_01.get (regs AIS25BA_TDM_CMAX_H)
        ∧ (∀ a : Nat, a ≠ AIS25BA_TDM_CTRL_REG → a ≠ AIS25BA_TDM_CMAX_H →
            a ≠ AIS25BA_TDM_CMAX_L → regs2 a = regs a)
        ∧ (log.filter (fun c => decide (c.op = BusOp.write))).map BusCall.sig
            = [(BusOp.write, AIS25BA_TDM_CTRL_REG, 1), (BusOp.write, AIS25BA_TDM_CMAX_H, 2)] := by
  refine ⟨(ais25ba_bus_mode_set (some (traced regfile)) (regs, []) m stack).2.1,
    (ais25ba_bus_mode_set (some (traced regfile)) (regs, []) m stack).2.2, ?_, ?_, ?_, ?_, ?_,
    ?_, ?_⟩
  · simp [ais25ba_bus_mode_set, ais25ba_read_reg, ais25ba_write_reg, regfile, traced, Id.run]
  all_goals
    simp (disch := decide) [ais25ba_bus_mode_set, assign_tdm_cmax_h, assign_tdm_cmax_l,
      ais25ba_read_reg, ais25ba_write_reg, regfile,
      traced, regfile_read_one, regfile_read_two, regfile_write_one, regfile_write_two, Id.run,
      bytecpy, AIS25BA_TDM_CTRL_REG, AIS25BA_TDM_CMAX_H, AIS25BA_TDM_CMAX_L, Function.update,
      BitField.get_set_same, BitField.get_set_apart, List.getElem?_cons_zero,
      List.getD_cons_zero, List.getD_cons_succ, BusCall.sig]
  · intro a h1 h2 h3
    simp [h1, h2, h3]
  · rfl

/-- Claim C9: for every output-rate mode and every initial register contents,
on the persisting transport `ais25ba_mode_set` returns 0 and leaves every
member of register 0x26 but `pd` (bit 5), every member of register 0x2E but
`wclk_fq` (bits 1-2) and every member of register 0x2F but `odr_auto_en`
(bit 0) as they were, and every register other than 0x26, 0x2E and 0x2F as it
was; the three members hold bit 0, bits 1-2 and bit 4 of the mode's code; its
write calls are write(0x26, 1) and write(0x2E, 2) and no other. -/
theorem mode_set_frame (md : ais25ba_md_t) (regs stack : Nat → Nat) :
    ∃ (regs2 : Nat → Nat) (log : List (BusCall (Nat → Nat))),
      ais25ba_mode_set (some (traced regfile)) (regs, []) md stack = (0, regs2, log)
        ∧ ctrl_reg_not_used_01.get (regs2 AIS25BA_CTRL_REG_1)
            = ctrl_reg_not_used_01.get (regs AIS25BA_CTRL_REG_1)
        ∧ ctrl_reg_not_used_02.get (regs2 AIS25BA_CTRL_REG_1)
            = ctrl_reg_not_used_02.get (regs AIS25BA_CTRL_REG_1)
        ∧ tdm_ctrl_reg_not_used_01.get (regs2 AIS25BA_TDM_CTRL_REG)
            = tdm_ctrl_reg_not_used_01.get (regs AIS25BA_TDM_CTRL_REG)
        ∧ tdm_ctrl_reg_not_used_02.get (regs2 AIS25BA_TDM_CTRL_REG)
            = tdm_ctrl_reg_not_used_02.get (regs AIS25BA_TDM_CTRL_REG)
        ∧ tdm_ctrl_reg_mapping.get (regs2 AIS25BA_TDM_CTRL_REG)
            = tdm_ctrl_reg_mapping.get (regs AIS25BA_TDM_CTRL_REG)
        ∧ tdm_ctrl_reg_data_valid.get (regs2 AIS25BA_TDM_CTRL_REG)
            = tdm_ctrl_reg_data_valid.get (regs AIS25BA_TDM_CTRL_REG)
        ∧ tdm_ctrl_reg_delayed.get (regs2 AIS25BA_TDM_CTRL_REG)
            = tdm_ctrl_reg_delayed.get (regs AIS25BA_TDM_CTRL_REG)
        ∧ tdm_ctrl_reg_tdm_pd.get (regs2 AIS25BA_TDM_CTRL_REG)
            = tdm_ctrl_reg_tdm_pd.get (regs AIS25BA_TDM_CTRL_REG)
        ∧ axes_ctrl_reg_not_used_01.get (regs2 AIS25BA_CTRL_REG_2)
            = axes_ctrl_reg_not_used_01.get (regs AIS25BA_CTRL_REG_2)
        ∧ ctrl_reg_pd.get (regs2 AIS25BA_CTRL_REG_1) = md.odr.code % 2
        ∧ tdm_ctrl_reg_wclk_fq.get (regs2 AIS25BA_TDM_CTRL_REG) = md.odr.code / 2 % 4
        ∧ axes_ctrl_reg_odr_auto_en.get (regs2 AIS25BA_CTRL_REG_2) = md.odr.code / 16 % 2
        ∧ (∀ a : Nat, a ≠ AIS25BA_CTRL_REG_1 → a ≠ AIS25BA_TDM_CTRL_REG →
            a ≠ AIS25BA_CTRL_REG_2 → regs2 a = regs a)
        ∧ (log.filter (fun c => decide (c.op = BusOp.write))).map BusCall.sig
            = [(BusOp.write, AIS25BA_CTRL_REG_1, 1), (BusOp.write, AIS25BA_TDM_CTRL_REG, 2)] := by
  refine ⟨(ais25ba_mode_set (some (traced regfile)) (regs, []) md stack).2.1,
    (ais25ba_mode_set (some (traced regfile)) (regs, []) md stack).2.2, ?_, ?_, ?_, ?_, ?_,
    ?_, ?_, ?_, ?_, ?_, ?_, ?_, ?_, ?_, ?_⟩
  · simp [ais25ba_mode_set, ais25ba_read_reg, ais25ba_write_reg, regfile, traced, Id.run]
  all_goals
    simp (disch := decide) [ais25ba_mode_set, ais25ba_read_reg, ais25ba_write_reg, regfile,
      traced, regfile_read_one, regfile_read_two, regfile_write_one, regfile_write_two, Id.run,
      bytecpy, AIS25BA_TDM_CTRL_REG, AIS25BA_CTRL_REG_1, AIS25BA_CTRL_REG_2, Function.update,
      BitField.get_set_same, BitField.get_set_apart, List.getElem?_cons_zero,
      List.getD_cons_zero, List.getD_cons_succ, BusCall.sig]
  · obtain ⟨r⟩ := md
    cases r <;> decide
  · obtain ⟨r⟩ := md
    cases r <;> decide
  · obtain ⟨r⟩ := md
    cases r <;> decide
  · intro a h1 h2 h3
    simp [h1, h2, h3]
  · rfl

/-! ## Self test: set then get (C10) -/

/-- Claim C10: for every initial register contents and each of enabled and
disabled, on the transport that never fails and persists written bytes,
`ais25ba_self_test_set` returns 0 and a following `ais25ba_self_test_get`
returns 0 and the value that was set (1 for enabled, 0 for disabled). -/
theorem self_test_set_get_roundtrip (enabled : Bool) (regs stack stack2 : Nat → Nat) :
    ∃ regs2 : Nat → Nat,
      ais25ba_self_test_set (some regfile) regs
          (if enabled then PROPERTY_ENABLE else PROPERTY_DISABLE) stack = (0, regs2)
        ∧ ais25ba_self_test_get (some regfile) regs2 stack2
            = (0, if enabled then PROPERTY_ENABLE else PROPERTY_DISABLE, regs2) := by
  refine ⟨(ais25ba_self_test_set (some regfile) regs
          (if enabled then PROPERTY_ENABLE else PROPERTY_DISABLE) stack).2, ?_, ?_⟩
  · simp [ais25ba_self_test_set, ais25ba_read_reg, ais25ba_write_reg, regfile, Id.run]
  · simp (disch := decide) [ais25ba_self_test_set, ais25ba_self_test_get, ais25ba_read_reg,
      ais25ba_write_reg, regfile, regfile_read_one, regfile_write_one, Id.run,
      AIS25BA_TEST_REG, Function.update, BitField.get_set_same, List.getElem?_cons_zero,
      List.getD_cons_zero]
    cases enabled <;> decide

/-! ## Self test: frame (C11) -/

/-- Claim C11: for every initial register contents and every argument, on the
persisting transport `ais25ba_self_test_set` returns 0, leaves every member of
register 0x0B but `st` (bit 3) and every other register as they were, and
issues read(0x0B, 1) then write(0x0B, 1); on any transport it issues one write
when the initial read returns 0 and, when the read fails, no write: the read
is its only call and its status is the result. -/
theorem self_test_set_frame {σ : Type} (ctx : stmdev_ctx_t σ) (s : σ) (val : Nat)
    (regs stack : Nat → Nat) :
    (∃ (regs2 : Nat → Nat) (log : List (BusCall (Nat → Nat))),
      ais25ba_self_test_set (some (traced regfile)) (regs, []) val stack = (0, regs2, log)
        ∧ test_reg_not_used_01.get (regs2 AIS25BA_TEST_REG)
            = test_reg_not_used_01.get (regs AIS25BA_TEST_REG)
        ∧ test_reg_not_used_02.get (regs2 AIS25BA_TEST_REG)
            = test_reg_not_used_02.get (regs AIS25BA_TEST_REG)
        ∧ (∀ a : Nat, a ≠ AIS25BA_TEST_REG → regs2 a = regs a)
        ∧ log.map BusCall.sig
            = [(BusOp.read, AIS25BA_TEST_REG, 1), (BusOp.write, AIS25BA_TEST_REG, 1)])
      ∧ (if (ctx.read_reg s AIS25BA_TEST_REG [stack 0] 1).1 = 0 then
          write_count (ais25ba_self_test_set (some (traced ctx)) (s, []) val stack).2.2 = 1
        else
          write_count (ais25ba_self_test_set (some (traced ctx)) (s, []) val stack).2.2 = 0
            ∧ (ais25ba_self_test_set (some (traced ctx)) (s, []) val stack).2.2.map BusCall.sig
              = [(BusOp.read, AIS25BA_TEST_REG, 1)]
            ∧ (ais25ba_self_test_set (some (traced ctx)) (s, []) val stack).1
              = (ctx.read_reg s AIS25BA_TEST_REG [stack 0] 1).1) := by
  constructor
  · refine ⟨(ais25ba_self_test_set (some (traced regfile)) (regs, []) val stack).2.1,
      (ais25ba_self_test_set (some (traced regfile)) (regs, []) val stack).2.2,
      ?_, ?_, ?_, ?_, ?_⟩
    · simp [ais25ba_self_test_set, ais25ba_read_reg, ais25ba_write_reg, regfile, traced, Id.run]
    all_goals
      simp (disch := decide) [ais25ba_self_test_set, ais25ba_read_reg, ais25ba_write_reg,
        regfile, traced, regfile_read_one, regfile_write_one, Id.run, AIS25BA_TEST_REG,
        Function.update, BitField.get_set_apart, List.getElem?_cons_zero,
        List.getD_cons_zero, BusCall.sig]
    · intro a h
      simp [h]
  · simp only [ais25ba_self_test_set, ais25ba_read_reg, ais25ba_write_reg, traced, Id.run,
      write_count]
    split_ifs with h
    all_goals simp [h, BusCall.sig]

/-! ## Sample extraction (C12) -/

/-- The conversion to `int16_t` is the two's-complement reading of the word:
the result lies in [-32768, 32767] and differs from the word by a multiple of
`2 ^ 16`. -/
theorem to_int16_spec (x : Nat) :
    -(2 ^ 15 : Int) ≤ to_int16 x ∧ to_int16 x < 2 ^ 15
      ∧ (to_int16 x - (x : Int)) % 2 ^ 16 = 0 := by
  unfold to_int16
  split <;> omega

/-- Result of `ais25ba_data_get` when the three words at `offset`, `offset + 1`
and `offset + 2` exist. -/
theorem data_get_of_words {F : Type} (f : Int → F) (tdm_stream : List Nat)
    (md : ais25ba_bus_mode_t) (w0 w1 w2 : Nat)
    (h0 : tdm_stream[data_get_offset md]? = some w0)
    (h1 : tdm_stream[1 + data_get_offset md]? = some w1)
    (h2 : tdm_stream[2 + data_get_offset md]? = some w2) :
    ais25ba_data_get f tdm_stream md
      = some (0, ⟨[f (to_int16 w0), f (to_int16 w1), f (to_int16 w2)],
          [to_int16 w0, to_int16 w1, to_int16 w2]⟩) := by
  simp [ais25ba_data_get, h0, h1, h2]

/-- Claim C12: for every frame of 16-bit words holding at least `offset + 3`
words and every bus mode, with `offset` 0 when slot-mapping is disabled and 4
when it is enabled, `ais25ba_data_get` returns status 0 and sets `raw[i]` to
the signed 16-bit (two's-complement) reading of `frame[offset + i]` for
i = 0, 1, 2 and `mg[i]` to the conversion of `raw[i]`; the result is the same
for any other frame that agrees with this one at those three indices. -/
theorem data_get_raw {F : Type} (from_raw_to_mg : Int → F) (tdm_stream : List Nat)
    (md : ais25ba_bus_mode_t) (hlen : data_get_offset md + 3 ≤ tdm_stream.length) :
    data_get_offset md = (if md.mapping % 2 = 0 then 0 else 4)
      ∧ ∃ data : ais25ba_data_t F,
        ais25ba_data_get from_raw_to_mg tdm_stream md = some (0, data)
          ∧ data.raw = [to_int16 (tdm_stream.getD (data_get_offset md) 0),
              to_int16 (tdm_stream.getD (data_get_offset md + 1) 0),
              to_int16 (tdm_stream.getD (data_get_offset md + 2) 0)]
          ∧ data.mg = data.raw.map from_raw_to_mg
          ∧ (∀ x : Nat, -(2 ^ 15 : Int) ≤ to_int16 x ∧ to_int16 x < 2 ^ 15
              ∧ (to_int16 x - (x : Int)) % 2 ^ 16 = 0)
          ∧ (∀ other : List Nat,
              (∀ i : Nat, i < 3 →
                other[data_get_offset md + i]? = tdm_stream[data_get_offset md + i]?) →
              ais25ba_data_get from_raw_to_mg other md = some (0, data)) := by
  have e0 : tdm_stream[data_get_offset md]?
      = some (tdm_stream.getD (data_get_offset md) 0) := by
    rw [List.getD_eq_getElem?_getD, List.getElem?_eq_getElem (by omega)]; rfl
  have e1 : tdm_stream[1 + data_get_offset md]?
      = some (tdm_stream.getD (data_get_offset md + 1) 0) := by
    rw [List.getD_eq_getElem?_getD, Nat.add_comm, List.getElem?_eq_getElem (by omega)]; rfl
  have e2 : tdm_stream[2 + data_get_offset md]?
      = some (tdm_stream.getD (data_get_offset md + 2) 0) := by
    rw [List.getD_eq_getElem?_getD, Nat.add_comm, List.getElem?_eq_getElem (by omega)]; rfl
  refine ⟨by simp [data_get_offset, member, PROPERTY_DISABLE], _,
    data_get_of_words from_raw_to_mg tdm_stream md _ _ _ e0 e1 e2, rfl, rfl, to_int16_spec, ?_⟩
  intro other h
  have o0 := h 0 (by omega)
  have o1 := h 1 (by omega)
  have o2 := h 2 (by omega)
  rw [Nat.add_zero] at o0
  rw [Nat.add_comm] at o1 o2
  exact data_get_of_words from_raw_to_mg other md _ _ _ (o0.trans e0) (o1.trans e1)
    (o2.trans e2)

/-- Witness of `data_get_raw`: a frame of seven words with slot-mapping
enabled. -/
theorem data_get_raw_witness :
    data_get_offset ⟨0, 0, 0, 1, 0⟩ + 3 ≤ [1, 2, 65535, 0, 5, 6, 32768].length ∧
    (data_get_offset ⟨0, 0, 0, 1, 0⟩ = (if (1 : Nat) % 2 = 0 then 0 else 4)
      ∧ ∃ data : ais25ba_data_t Int,
        ais25ba_data_get (fun r => r) [1, 2, 65535, 0, 5, 6, 32768] ⟨0, 0, 0, 1, 0⟩
            = some (0, data)
          ∧ data.raw = [to_int16 ([1, 2, 65535, 0, 5, 6, 32768].getD
                (data_get_offset ⟨0, 0, 0, 1, 0⟩) 0),
              to_int16 ([1, 2, 65535, 0, 5, 6, 32768].getD
                (data_get_offset ⟨0, 0, 0, 1, 0⟩ + 1) 0),
              to_int16 ([1, 2, 65535, 0, 5, 6, 32768].getD
                (data_get_offset ⟨0, 0, 0, 1, 0⟩ + 2) 0)]
          ∧ data.mg = data.raw.map (fun r => r)
          ∧ (∀ x : Nat, -(2 ^ 15 : Int) ≤ to_int16 x ∧ to_int16 x < 2 ^ 15
              ∧ (to_int16 x - (x : Int)) % 2 ^ 16 = 0)
          ∧ (∀ other : List Nat,
              (∀ i : Nat, i < 3 →
                other[data_get_offset ⟨0, 0, 0, 1, 0⟩ + i]?
                  = [1, 2, 65535, 0, 5, 6, 32768][data_get_offset ⟨0, 0, 0, 1, 0⟩ + i]?) →
              ais25ba_data_get (fun r => r) other ⟨0, 0, 0, 1, 0⟩ = some (0, data))) :=
  ⟨by decide, data_get_raw (fun r => r) [1, 2, 65535, 0, 5, 6, 32768] ⟨0, 0, 0, 1, 0⟩
    (by decide)⟩

/-- The extraction on a frame of seven words: slots 4-5-6 with slot-mapping
enabled, slots 0-1-2 with it disabled; a frame of six words is too short for
slots 4-5-6. -/
theorem data_get_example :
    ais25ba_data_get (fun r => r) [1, 2, 65535, 0, 5, 6, 32768] ⟨0, 0, 0, 1, 0⟩
        = some (0, ⟨[5, 6, -32768], [5, 6, -32768]⟩)
      ∧ ais25ba_data_get (fun r => r) [1, 2, 65535, 0, 5, 6, 32768] ⟨0, 0, 0, 0, 0⟩
        = some (0, ⟨[1, 2, -1], [1, 2, -1]⟩)
      ∧ ais25ba_data_get (fun r => r) [1, 2, 65535, 0, 5, 6] ⟨0, 0, 0, 1, 0⟩ = none := by
  decide

/-! ## Sensitivity: the rounded product (C13) -/

/-- The nearest integer is within one half. -/
theorem round_half_even_error (y : ℚ) : |((round_half_even y : ℤ) : ℚ) - y| ≤ 1 / 2 := by
  have h1 := Int.floor_le y
  have h2 := Int.lt_floor_add_one y
  unfold round_half_even
  split_ifs with ha hb hc <;> push_cast <;> rw [abs_le] <;> constructor <;> linarith

/-- A number strictly within one half of the integer `n` rounds to `n`. -/
theorem round_half_even_eq (y : ℚ) (n : ℤ) (h1 : (n : ℚ) - 1 / 2 < y) (h2 : y < n + 1 / 2) :
    round_half_even y = n := by
  have hf1 := Int.floor_le y
  have hf2 := Int.lt_floor_add_one y
  have hlo : n - 1 ≤ ⌊y⌋ := by
    rw [Int.le_floor]; push_cast; linarith
  have hhi : ⌊y⌋ ≤ n := by
    have : ⌊y⌋ < n + 1 := by
      rw [Int.floor_lt]; push_cast; linarith
    omega
  have hcase : ⌊y⌋ = n - 1 ∨ ⌊y⌋ = n := by omega
  unfold round_half_even
  rcases hcase with h | h
  · have hq : ((⌊y⌋ : ℤ) : ℚ) = n - 1 := by rw [h]; push_cast; ring
    rw [if_neg (by rw [hq]; linarith), if_pos (by rw [hq]; linarith), h]; ring
  · have hq : ((⌊y⌋ : ℤ) : ℚ) = n := by rw [h]
    rw [if_pos (by rw [hq]; linarith), h]

/-- Rounding to `p` significant bits has a relative error of at most `2 ^ (-p)`. -/
theorem round_nearest_even_rel_error (p : Nat) (x : ℚ) :
    |round_nearest_even p x - x| ≤ 1 / 2 ^ p * |x| := by
  unfold round_nearest_even
  split_ifs with hx
  · simp [hx]
  · have hpos : 0 < |x| := abs_pos.mpr hx
    set e := Int.log 2 |x| with he
    have hq : (0 : ℚ) < 2 ^ (e - ((p : Int) - 1)) := zpow_pos (by norm_num) _
    have hle : (2 : ℚ) ^ e ≤ |x| := by
      have := Int.zpow_log_le_self (b := 2) (r := |x|) (by norm_num) hpos
      simpa [he] using this
    have herr := round_half_even_error (x / 2 ^ (e - ((p : Int) - 1)))
    have e1 : (round_half_even (x / 2 ^ (e - ((p : Int) - 1))) : ℚ) * 2 ^ (e - ((p : Int) - 1)) - x
        = ((round_half_even (x / 2 ^ (e - ((p : Int) - 1))) : ℚ) - x / 2 ^ (e - ((p : Int) - 1)))
          * 2 ^ (e - ((p : Int) - 1)) := by
      field_simp
    rw [e1, abs_mul, abs_of_pos hq]
    have e2 : (2 : ℚ) ^ (e - ((p : Int) - 1)) = 2 * (2 ^ e / 2 ^ p) := by
      rw [show e - ((p : Int) - 1) = e - p + 1 by ring, zpow_add₀ (by norm_num),
        zpow_sub₀ (by norm_num), zpow_natCast]
      ring
    rw [e2]
    have hp2 : (0 : ℚ) < 2 ^ p := by positivity
    have h2e : (0 : ℚ) < 2 ^ e := zpow_pos (by norm_num) _
    calc |(round_half_even (x / (2 * (2 ^ e / 2 ^ p))) : ℚ) - x / (2 * (2 ^ e / 2 ^ p))|
          * (2 * (2 ^ e / 2 ^ p))
        ≤ 1 / 2 * (2 * (2 ^ e / 2 ^ p)) := by
          rw [e2] at herr
          exact mul_le_mul_of_nonneg_right herr (by positivity)
      _ = 1 / 2 ^ p * 2 ^ e := by field_simp
      _ ≤ 1 / 2 ^ p * |x| := by
          exact mul_le_mul_of_nonneg_left hle (by positivity)

/-- The binary exponent of a positive number from its two bounds. -/
theorem int_log_two_eq (x : ℚ) (e : ℤ) (h1 : (2 : ℚ) ^ e ≤ x) (h2 : x < 2 ^ (e + 1)) :
    Int.log 2 x = e := by
  have hx : 0 < x := lt_of_lt_of_le (zpow_pos (by norm_num) _) h1
  have a : e ≤ Int.log 2 x := by
    rw [← Int.zpow_le_iff_le_log (by norm_num) hx]
    simpa using h1
  have b : Int.log 2 x < e + 1 := by
    rw [← Int.lt_zpow_iff_log_lt (by norm_num) hx]
    simpa using h2
  omega

/-- Value of the rounding at a number of exponent `e` whose scaled value lies
strictly within one half of the integer `n`. -/
theorem round_nearest_even_eq (p : Nat) (x : ℚ) (e n : ℤ) (h1 : (2 : ℚ) ^ e ≤ |x|)
    (h2 : |x| < 2 ^ (e + 1))
    (h3 : (n : ℚ) - 1 / 2 < x / 2 ^ (e - ((p : Int) - 1)))
    (h4 : x / 2 ^ (e - ((p : Int) - 1)) < n + 1 / 2) :
    round_nearest_even p x = n * 2 ^ (e - ((p : Int) - 1)) := by
  have hx : x ≠ 0 := by
    intro h
    rw [h, abs_zero] at h1
    exact absurd h1 (not_le.mpr (zpow_pos (by norm_num) _))
  unfold round_nearest_even
  rw [if_neg hx, int_log_two_eq |x| e h1 h2, round_half_even_eq _ n h3 h4]

/-- The constant `0.122f` in binary32: 16374563 * 2 ^ (-27). -/
theorem binary32_constant : round_nearest_even 24 (122 / 1000) = 16374563 / 2 ^ 27 := by
  have h := round_nearest_even_eq 24 (122 / 1000) (-4) 16374563
    (by rw [abs_of_pos (by norm_num)]; norm_num)
    (by rw [abs_of_pos (by norm_num)]; norm_num)
    (by norm_num) (by norm_num)
  rw [h]
  norm_num

/-- The conversion in binary32 at some raw values: -100 gives
-12792627 * 2 ^ (-20) (-12.19999981), 1 gives the constant itself, 1000 gives
122, 32767 gives 16374063 * 2 ^ (-12) and -32768 gives -16374563 * 2 ^ (-12). -/
theorem from_raw_to_mg_binary32_values :
    ais25ba_from_raw_to_mg (round_nearest_even 24) (-100) = -12792627 / 2 ^ 20
      ∧ ais25ba_from_raw_to_mg (round_nearest_even 24) 1 = 16374563 / 2 ^ 27
      ∧ ais25ba_from_raw_to_mg (round_nearest_even 24) 1000 = 122
      ∧ ais25ba_from_raw_to_mg (round_nearest_even 24) 32767 = 16374063 / 2 ^ 12
      ∧ ais25ba_from_raw_to_mg (round_nearest_even 24) (-32768) = -16374563 / 2 ^ 12 := by
  unfold ais25ba_from_raw_to_mg
  rw [binary32_constant]
  refine ⟨?_, ?_, ?_, ?_, ?_⟩
  · rw [round_nearest_even_eq 24 (((-100 : ℤ) : ℚ) * (16374563 / 2 ^ 27)) 3 (-12792627)
      (by rw [abs_of_neg (by norm_num)]; norm_num)
      (by rw [abs_of_neg (by norm_num)]; norm_num) (by norm_num) (by norm_num)]
    norm_num
  · rw [round_nearest_even_eq 24 (((1 : ℤ) : ℚ) * (16374563 / 2 ^ 27)) (-4) 16374563
      (by rw [abs_of_pos (by norm_num)]; norm_num)
      (by rw [abs_of_pos (by norm_num)]; norm_num) (by norm_num) (by norm_num)]
    norm_num
  · rw [round_nearest_even_eq 24 (((1000 : ℤ) : ℚ) * (16374563 / 2 ^ 27)) 6 15990784
      (by rw [abs_of_pos (by norm_num)]; norm_num)
      (by rw [abs_of_pos (by norm_num)]; norm_num) (by norm_num) (by norm_num)]
    norm_num
  · rw [round_nearest_even_eq 24 (((32767 : ℤ) : ℚ) * (16374563 / 2 ^ 27)) 11 16374063
      (by rw [abs_of_pos (by norm_num)]; norm_num)
      (by rw [abs_of_pos (by norm_num)]; norm_num) (by norm_num) (by norm_num)]
    norm_num
  · rw [round_nearest_even_eq 24 (((-32768 : ℤ) : ℚ) * (16374563 / 2 ^ 27)) 11 (-16374563)
      (by rw [abs_of_neg (by norm_num)]; norm_num)
      (by rw [abs_of_neg (by norm_num)]; norm_num) (by norm_num) (by norm_num)]
    norm_num

/-- The rounded product is within `|lsb| * 0.122 * (2 u + u ^ 2)` of
`lsb * 0.122` for a rounding of relative error at most `u`. -/
theorem from_raw_to_mg_bound (rnd : ℚ → ℚ) (u : ℚ) (lsb : Int) (hu0 : 0 ≤ u)
    (hrnd : ∀ x : ℚ, |rnd x - x| ≤ u * |x|) :
    |ais25ba_from_raw_to_mg rnd lsb - lsb * (122 / 1000)|
      ≤ |(lsb : ℚ)| * (122 / 1000) * (2 * u + u ^ 2) := by
  unfold ais25ba_from_raw_to_mg
  have hc := hrnd (122 / 1000)
  rw [abs_of_pos (show (0 : ℚ) < 122 / 1000 by norm_num)] at hc
  have hp := hrnd ((lsb : ℚ) * rnd (122 / 1000))
  rw [abs_mul] at hp
  have hcabs : |rnd (122 / 1000)| ≤ 122 / 1000 * (1 + u) := by
    have := abs_le.mp hc
    rw [abs_le]
    constructor <;> nlinarith [this.1, this.2]
  have hl : 0 ≤ |(lsb : ℚ)| := abs_nonneg _
  have e : rnd ((lsb : ℚ) * rnd (122 / 1000)) - lsb * (122 / 1000)
      = (rnd ((lsb : ℚ) * rnd (122 / 1000)) - lsb * rnd (122 / 1000))
        + lsb * (rnd (122 / 1000) - 122 / 1000) := by ring
  rw [e]
  calc |(rnd ((lsb : ℚ) * rnd (122 / 1000)) - lsb * rnd (122 / 1000))
          + lsb * (rnd (122 / 1000) - 122 / 1000)|
      ≤ |rnd ((lsb : ℚ) * rnd (122 / 1000)) - lsb * rnd (122 / 1000)|
          + |(lsb : ℚ) * (rnd (122 / 1000) - 122 / 1000)| := abs_add _ _
    _ ≤ u * (|(lsb : ℚ)| * (122 / 1000 * (1 + u))) + |(lsb : ℚ)| * (u * (122 / 1000)) := by
        rw [abs_mul (lsb : ℚ)]
        have t1 : u * (|(lsb : ℚ)| * |rnd (122 / 1000)|)
            ≤ u * (|(lsb : ℚ)| * (122 / 1000 * (1 + u))) :=
          mul_le_mul_of_nonneg_left (mul_le_mul_of_nonneg_left hcabs hl) hu0
        have t2 : |(lsb : ℚ)| * |rnd (122 / 1000) - 122 / 1000|
            ≤ |(lsb : ℚ)| * (u * (122 / 1000)) := mul_le_mul_of_nonneg_left hc hl
        linarith
    _ = |(lsb : ℚ)| * (122 / 1000) * (2 * u + u ^ 2) := by ring

/-- For a rounding of relative error at most `2 ^ (-24)` the rounded product
of a 16-bit value is within `b * 0.122 * (2 ^ (-23) + 2 ^ (-48))` of
`lsb * 0.122` when `|lsb| ≤ b`. -/
theorem from_raw_to_mg_abs_bound (rnd : ℚ → ℚ) (u : ℚ) (lsb : Int) (b : ℚ) (hu0 : 0 ≤ u)
    (hu : u ≤ 1 / 2 ^ 24) (hrnd : ∀ x : ℚ, |rnd x - x| ≤ u * |x|) (hb : |(lsb : ℚ)| ≤ b) :
    |ais25ba_from_raw_to_mg rnd lsb - lsb * (122 / 1000)|
      ≤ b * (122 / 1000) * (2 * (1 / 2 ^ 24) + (1 / 2 ^ 24) ^ 2) := by
  have h := from_raw_to_mg_bound rnd u lsb hu0 hrnd
  have hl : 0 ≤ |(lsb : ℚ)| := abs_nonneg _
  have hu2 : 2 * u + u ^ 2 ≤ 2 * (1 / 2 ^ 24) + (1 / 2 ^ 24) ^ 2 := by nlinarith
  have hu3 : 0 ≤ 2 * u + u ^ 2 := by positivity
  calc |ais25ba_from_raw_to_mg rnd lsb - lsb * (122 / 1000)|
      ≤ |(lsb : ℚ)| * (122 / 1000) * (2 * u + u ^ 2) := h
    _ ≤ b * (122 / 1000) * (2 * u + u ^ 2) := by
        apply mul_le_mul_of_nonneg_right _ hu3
        exact mul_le_mul_of_nonneg_right hb (by norm_num)
    _ ≤ b * (122 / 1000) * (2 * (1 / 2 ^ 24) + (1 / 2 ^ 24) ^ 2) := by
        apply mul_le_mul_of_nonneg_left hu2
        exact mul_nonneg (le_trans hl hb) (by norm_num)

/-- A result of `ais25ba_data_get` has status 0 and holds, in `raw` and `mg`,
the conversions of three words of the stream. -/
theorem data_get_some {F : Type} (f : Int → F) (tdm_stream : List Nat)
    (md : ais25ba_bus_mode_t) (st : Int) (data : ais25ba_data_t F)
    (h : ais25ba_data_get f tdm_stream md = some (st, data)) :
    ∃ w0 w1 w2 : Nat, st = 0
      ∧ data.raw = [to_int16 w0, to_int16 w1, to_int16 w2]
      ∧ data.mg = [f (to_int16 w0), f (to_int16 w1), f (to_int16 w2)] := by
  cases h0 : tdm_stream[data_get_offset md]? with
  | none => simp [ais25ba_data_get, h0] at h
  | some w0 =>
    cases h1 : tdm_stream[1 + data_get_offset md]? with
    | none => simp [ais25ba_data_get, h0, h1] at h
    | some w1 =>
      cases h2 : tdm_stream[2 + data_get_offset md]? with
      | none => simp [ais25ba_data_get, h0, h1, h2] at h
      | some w2 =>
        rw [data_get_of_words f tdm_stream md w0 w1 w2 h0 h1 h2] at h
        simp only [Option.some.injEq, Prod.mk.injEq] at h
        refine ⟨w0, w1, w2, h.1.symm, ?_, ?_⟩
        · rw [← h.2]
        · rw [← h.2]

/-- Claim C13: with `rnd` the rounding of `float_t`, of relative error at most
`u ≤ 2 ^ (-24)` (binary32 or wider), `ais25ba_from_raw_to_mg` of a signed
16-bit value `lsb` is within `|lsb| * 0.122 * (2 u + u ^ 2)` of
`lsb * 0.122`, hence within 0.0005; for the raw value -100 the result is
within 0.0001 of -12.2; and each `mg[i]` that `ais25ba_data_get` produces with
this conversion is within 0.0005 of `raw[i] * 0.122`. -/
theorem from_raw_to_mg_error (rnd : ℚ → ℚ) (u : ℚ) (lsb : Int) (hu0 : 0 ≤ u)
    (hu : u ≤ 1 / 2 ^ 24) (hrnd : ∀ x : ℚ, |rnd x - x| ≤ u * |x|)
    (hlo : -32768 ≤ lsb) (hhi : lsb ≤ 32767) :
    |ais25ba_from_raw_to_mg rnd lsb - lsb * (122 / 1000)|
        ≤ |(lsb : ℚ)| * (122 / 1000) * (2 * u + u ^ 2)
      ∧ |ais25ba_from_raw_to_mg rnd lsb - lsb * (122 / 1000)| ≤ 5 / 10000
      ∧ |ais25ba_from_raw_to_mg rnd (-100) - (-122 / 10)| ≤ 1 / 10000
      ∧ (∀ (tdm_stream : List Nat) (md : ais25ba_bus_mode_t) (st : Int)
          (data : ais25ba_data_t ℚ),
          ais25ba_data_get (ais25ba_from_raw_to_mg rnd) tdm_stream md = some (st, data) →
          ∀ (i : Nat) (r : Int) (m : ℚ), data.raw[i]? = some r → data.mg[i]? = some m →
            m = ais25ba_from_raw_to_mg rnd r ∧ |m - r * (122 / 1000)| ≤ 5 / 10000) := by
  have int16 : ∀ z : Int, -32768 ≤ z → z < 32768 →
      |ais25ba_from_raw_to_mg rnd z - z * (122 / 1000)| ≤ 5 / 10000 := by
    intro z h1 h2
    have hb : |(z : ℚ)| ≤ 32768 := by
      rw [abs_le]
      constructor
      · exact_mod_cast h1
      · exact_mod_cast (le_of_lt h2)
    refine le_trans (from_raw_to_mg_abs_bound rnd u z 32768 hu0 hu hrnd hb) ?_
    norm_num
  refine ⟨from_raw_to_mg_bound rnd u lsb hu0 hrnd, int16 lsb hlo (by omega), ?_, ?_⟩
  · have h := from_raw_to_mg_abs_bound rnd u (-100) 100 hu0 hu hrnd (by norm_num)
    have e : (((-100 : ℤ) : ℚ)) * (122 / 1000) = -122 / 10 := by norm_num
    rw [e] at h
    refine le_trans h ?_
    norm_num
  · intro tdm_stream md st data h i r m hr hm
    obtain ⟨w0, w1, w2, -, hraw, hmg⟩ := data_get_some _ tdm_stream md st data h
    rw [hraw] at hr
    rw [hmg] at hm
    have s0 := to_int16_spec w0
    have s1 := to_int16_spec w1
    have s2 := to_int16_spec w2
    rcases i with _ | _ | _ | i
    · simp at hr hm
      subst hr hm
      exact ⟨rfl, int16 _ (by simpa using s0.1) (by simpa using s0.2.1)⟩
    · simp at hr hm
      subst hr hm
      exact ⟨rfl, int16 _ (by simpa using s1.1) (by simpa using s1.2.1)⟩
    · simp at hr hm
      subst hr hm
      exact ⟨rfl, int16 _ (by simpa using s2.1) (by simpa using s2.2.1)⟩
    · simp at hr

/-- Witness of `from_raw_to_mg_error`: binary32 rounding (`p = 24`,
`u = 2 ^ (-24)`) and the raw value -100. -/
theorem from_raw_to_mg_error_witness :
    ((0 : ℚ) ≤ 1 / 2 ^ 24 ∧ (1 : ℚ) / 2 ^ 24 ≤ 1 / 2 ^ 24
      ∧ (∀ x : ℚ, |round_nearest_even 24 x - x| ≤ 1 / 2 ^ 24 * |x|)
      ∧ (-32768 : Int) ≤ -100 ∧ (-100 : Int) ≤ 32767) ∧
    (|ais25ba_from_raw_to_mg (round_nearest_even 24) (-100) - ((-100 : Int) : ℚ) * (122 / 1000)|
        ≤ |(((-100 : Int)) : ℚ)| * (122 / 1000) * (2 * (1 / 2 ^ 24) + (1 / 2 ^ 24) ^ 2)
      ∧ |ais25ba_from_raw_to_mg (round_nearest_even 24) (-100)
          - ((-100 : Int) : ℚ) * (122 / 1000)| ≤ 5 / 10000
      ∧ |ais25ba_from_raw_to_mg (round_nearest_even 24) (-100) - (-122 / 10)| ≤ 1 / 10000
      ∧ (∀ (tdm_stream : List Nat) (md : ais25ba_bus_mode_t) (st : Int)
          (data : ais25ba_data_t ℚ),
          ais25ba_data_get (ais25ba_from_raw_to_mg (round_nearest_even 24)) tdm_stream md
            = some (st, data) →
          ∀ (i : Nat) (r : Int) (m : ℚ), data.raw[i]? = some r → data.mg[i]? = some m →
            m = ais25ba_from_raw_to_mg (round_nearest_even 24) r
              ∧ |m - r * (122 / 1000)| ≤ 5 / 10000)) :=
  ⟨⟨by norm_num, le_refl _, round_nearest_even_rel_error 24, by decide, by decide⟩,
    from_raw_to_mg_error (round_nearest_even 24) (1 / 2 ^ 24) (-100) (by norm_num) (le_refl _)
      (round_nearest_even_rel_error 24) (by decide) (by decide)⟩

/-! ## Bus mode get: status (C14) -/

/-- Claim C14: on any transport, when the first read of `ais25ba_bus_mode_get`
(register 0x2E, 1 byte) returns 0 the second read (registers from 0x24,
2 bytes) is issued and its status, zero or not, is the result; when the first
read returns a non-zero status that status is the result and the second read
is not issued. -/
theorem bus_mode_get_status {σ : Type} (ctx : stmdev_ctx_t σ) (s : σ) (stack : Nat → Nat) :
    if (ctx.read_reg s AIS25BA_TDM_CTRL_REG [stack 0] 1).1 = 0 then
      (ais25ba_bus_mode_get (some (traced ctx)) (s, []) stack).1
          = (ctx.read_reg (ctx.read_reg s AIS25BA_TDM_CTRL_REG [stack 0] 1).2.2
              AIS25BA_TDM_CMAX_H [stack 3, stack 4] 2).1
        ∧ (ais25ba_bus_mode_get (some (traced ctx)) (s, []) stack).2.2.2.map BusCall.sig
          = [(BusOp.read, AIS25BA_TDM_CTRL_REG, 1), (BusOp.read, AIS25BA_TDM_CMAX_H, 2)]
    else
      (ais25ba_bus_mode_get (some (traced ctx)) (s, []) stack).1
          = (ctx.read_reg s AIS25BA_TDM_CTRL_REG [stack 0] 1).1
        ∧ (ais25ba_bus_mode_get (some (traced ctx)) (s, []) stack).2.2.2.map BusCall.sig
          = [(BusOp.read, AIS25BA_TDM_CTRL_REG, 1)] := by
  simp only [ais25ba_bus_mode_get, ais25ba_read_reg, traced, Id.run]
  split_ifs with h
  all_goals simp [h, BusCall.sig]

/-! ## Order of the transport calls (C15) -/

/-- Claim C15: on a transport whose reads and writes all return 0,
`ais25ba_bus_mode_set` returns 0 and issues exactly read(0x2E, 1),
read(0x24, 2), write(0x2E, 1), write(0x24, 2) in that order, and
`ais25ba_mode_set` returns 0 and issues exactly read(0x26, 1), read(0x2E, 2),
write(0x26, 1), write(0x2E, 2) in that order. -/
theorem set_calls_when_no_failure {σ : Type} (ctx : stmdev_ctx_t σ) (s : σ)
    (bus : ais25ba_bus_mode_t) (md : ais25ba_md_t) (stack : Nat → Nat)
    (hr : ∀ (t : σ) (reg : Nat) (data : List Nat) (len : Nat),
      (ctx.read_reg t reg data len).1 = 0)
    (hw : ∀ (t : σ) (reg : Nat) (data : List Nat) (len : Nat),
      (ctx.write_reg t reg data len).1 = 0) :
    (ais25ba_bus_mode_set (some (traced ctx)) (s, []) bus stack).1 = 0
      ∧ (ais25ba_bus_mode_set (some (traced ctx)) (s, []) bus stack).2.2.map BusCall.sig
        = [(BusOp.read, 0x2E, 1), (BusOp.read, 0x24, 2), (BusOp.write, 0x2E, 1),
           (BusOp.write, 0x24, 2)]
      ∧ (ais25ba_mode_set (some (traced ctx)) (s, []) md stack).1 = 0
      ∧ (ais25ba_mode_set (some (traced ctx)) (s, []) md stack).2.2.map BusCall.sig
        = [(BusOp.read, 0x26, 1), (BusOp.read, 0x2E, 2), (BusOp.write, 0x26, 1),
           (BusOp.write, 0x2E, 2)] := by
  refine ⟨?_, ?_, ?_, ?_⟩ <;>
    simp [ais25ba_bus_mode_set, ais25ba_mode_set, ais25ba_read_reg, ais25ba_write_reg, traced,
      Id.run, hr, hw, BusCall.sig, AIS25BA_TDM_CTRL_REG, AIS25BA_TDM_CMAX_H, AIS25BA_CTRL_REG_1]

/-- Witness of `set_calls_when_no_failure`: the register-file transport. -/
theorem set_calls_when_no_failure_witness :
    ((∀ (t : Nat → Nat) (reg : Nat) (data : List Nat) (len : Nat),
        (regfile.read_reg t reg data len).1 = 0)
      ∧ (∀ (t : Nat → Nat) (reg : Nat) (data : List Nat) (len : Nat),
        (regfile.write_reg t reg data len).1 = 0)) ∧
    ((ais25ba_bus_mode_set (some (traced regfile)) (fun _ => 0, []) ⟨1, 0, 1, 1, 1⟩
        (fun _ => 0)).1 = 0
      ∧ (ais25ba_bus_mode_set (some (traced regfile)) (fun _ => 0, []) ⟨1, 0, 1, 1, 1⟩
        (fun _ => 0)).2.2.map BusCall.sig
        = [(BusOp.read, 0x2E, 1), (BusOp.read, 0x24, 2), (BusOp.write, 0x2E, 1),
           (BusOp.write, 0x24, 2)]
      ∧ (ais25ba_mode_set (some (traced regfile)) (fun _ => 0, [])
        ⟨ais25ba_odr_t.AIS25BA_XL_16kHz⟩ (fun _ => 0)).1 = 0
      ∧ (ais25ba_mode_set (some (traced regfile)) (fun _ => 0, [])
        ⟨ais25ba_odr_t.AIS25BA_XL_16kHz⟩ (fun _ => 0)).2.2.map BusCall.sig
        = [(BusOp.read, 0x26, 1), (BusOp.read, 0x2E, 2), (BusOp.write, 0x26, 1),
           (BusOp.write, 0x2E, 2)]) :=
  ⟨⟨fun _ _ _ _ => rfl, fun _ _ _ _ => rfl⟩,
    set_calls_when_no_failure regfile (fun _ => 0) ⟨1, 0, 1, 1, 1⟩
      ⟨ais25ba_odr_t.AIS25BA_XL_16kHz⟩ (fun _ => 0) (fun _ _ _ _ => rfl) (fun _ _ _ _ => rfl)⟩

/-! ## Build-time byte order (C16) -/

/-- Claim C16: for each of the five register structs with two declaration
branches, allocating the members of the little-endian branch from bit 0
upward and those of the big-endian branch from bit 7 downward puts every
named member at the same bit position with the same width; both branches fill
the byte; the little-endian positions are the members the driver functions
use; hence reading and assigning a member give the same value and the same
byte under either byte order. -/
theorem byte_order_layouts_agree :
    (∀ d ∈ register_decls, ∀ m : Member, locate_le m d.little 0 = locate_be m d.big 8)
      ∧ (∀ d ∈ register_decls,
          (d.little.map Prod.snd).sum = 8 ∧ (d.big.map Prod.snd).sum = 8)
      ∧ (locate_le Member.st test_reg_decl.little 0 = some test_reg_st
          ∧ locate_le Member.not_used_01 test_reg_decl.little 0 = some test_reg_not_used_01
          ∧ locate_le Member.not_used_02 test_reg_decl.little 0 = some test_reg_not_used_02
          ∧ locate_le Member.tdm_cmax tdm_cmax_h_decl.little 0 = some tdm_cmax_h_tdm_cmax
          ∧ locate_le Member.not_used_01 tdm_cmax_h_decl.little 0 = some tdm_cmax_h_not_used_01
          ∧ locate_le Member.not_used_01 ctrl_reg_decl.little 0 = some ctrl_reg_not_used_01
          ∧ locate_le Member.pd ctrl_reg_decl.little 0 = some ctrl_reg_pd
          ∧ locate_le Member.not_used_02 ctrl_reg_decl.little 0 = some ctrl_reg_not_used_02
          ∧ locate_le Member.not_used_01 tdm_ctrl_reg_decl.little 0
              = some tdm_ctrl_reg_not_used_01
          ∧ locate_le Member.wclk_fq tdm_ctrl_reg_decl.little 0 = some tdm_ctrl_reg_wclk_fq
          ∧ locate_le Member.not_used_02 tdm_ctrl_reg_decl.little 0
              = some tdm_ctrl_reg_not_used_02
          ∧ locate_le Member.mapping tdm_ctrl_reg_decl.little 0 = some tdm_ctrl_reg_mapping
          ∧ locate_le Member.data_valid tdm_ctrl_reg_decl.little 0
              = some tdm_ctrl_reg_data_valid
          ∧ locate_le Member.delayed tdm_ctrl_reg_decl.little 0 = some tdm_ctrl_reg_delayed
          ∧ locate_le Member.tdm_pd tdm_ctrl_reg_decl.little 0 = some tdm_ctrl_reg_tdm_pd
          ∧ locate_le Member.odr_auto_en axes_ctrl_reg_decl.little 0
              = some axes_ctrl_reg_odr_auto_en
          ∧ locate_le Member.not_used_01 axes_ctrl_reg_decl.little 0
              = some axes_ctrl_reg_not_used_01)
      ∧ (∀ d ∈ register_decls, ∀ (m : Member) (f g : BitField),
          locate_le m d.little 0 = some f → locate_be m d.big 8 = some g →
            (∀ byte : Nat, g.get byte = f.get byte)
              ∧ (∀ byte v : Nat, g.set byte v = f.set byte v)) := by
  have key : ∀ d ∈ register_decls, ∀ m : Member,
      locate_le m d.little 0 = locate_be m d.big 8 := by
    intro d hd m
    simp only [register_decls, List.mem_cons, List.mem_singleton, List.not_mem_nil,
      or_false] at hd
    rcases hd with rfl | rfl | rfl | rfl | rfl <;> cases m <;> rfl
  refine ⟨key, by decide, by decide, ?_⟩
  intro d hd m f g hf hg
  have e : f = g := by
    have := key d hd m
    rw [hf, hg] at this
    exact Option.some.inj this
  subst e
  exact ⟨fun _ => rfl, fun _ _ => rfl⟩

/-! ## Number of transport calls (C17) -/

/-- Claim C17, as stated, fails: on the register-file transport
`ais25ba_bus_mode_set` and `ais25ba_mode_set` each issue four transport calls,
more than two. -/
theorem set_operations_issue_four_calls :
    (ais25ba_bus_mode_set (some (traced regfile)) (fun _ => 0, []) ⟨1, 0, 0, 0, 0⟩
        (fun _ => 0)).2.2.length = 4
      ∧ (ais25ba_mode_set (some (traced regfile)) (fun _ => 0, [])
        ⟨ais25ba_odr_t.AIS25BA_XL_8kHz⟩ (fun _ => 0)).2.2.length = 4
      ∧ ¬ (ais25ba_bus_mode_set (some (traced regfile)) (fun _ => 0, []) ⟨1, 0, 0, 0, 0⟩
        (fun _ => 0)).2.2.length ≤ 2 := by
  decide

/-- Claim C17, amended: on any transport and any input, `ais25ba_id_get`,
`ais25ba_bus_mode_get`, `ais25ba_mode_get`, `ais25ba_self_test_get` and
`ais25ba_self_test_set` issue at most two transport calls, and
`ais25ba_bus_mode_set` and `ais25ba_mode_set` at most four. -/
theorem transport_call_bounds {σ : Type} (ctx : stmdev_ctx_t σ) (s : σ) (id : ais25ba_id_t)
    (bus : ais25ba_bus_mode_t) (md : ais25ba_md_t) (val : Nat) (stack : Nat → Nat) :
    (ais25ba_id_get (some (traced ctx)) (s, []) id).2.2.2.length ≤ 2
      ∧ (ais25ba_bus_mode_get (some (traced ctx)) (s, []) stack).2.2.2.length ≤ 2
      ∧ (ais25ba_mode_get (some (traced ctx)) (s, []) stack).2.2.2.length ≤ 2
      ∧ (ais25ba_self_test_get (some (traced ctx)) (s, []) stack).2.2.2.length ≤ 2
      ∧ (ais25ba_self_test_set (some (traced ctx)) (s, []) val stack).2.2.length ≤ 2
      ∧ (ais25ba_bus_mode_set (some (traced ctx)) (s, []) bus stack).2.2.length ≤ 4
      ∧ (ais25ba_mode_set (some (traced ctx)) (s, []) md stack).2.2.length ≤ 4 := by
  refine ⟨?_, ?_, ?_, ?_, ?_, ?_, ?_⟩
  all_goals
    simp only [ais25ba_id_get, ais25ba_bus_mode_get, ais25ba_mode_get, ais25ba_self_test_get,
      ais25ba_self_test_set, ais25ba_bus_mode_set, ais25ba_mode_set, ais25ba_read_reg,
      ais25ba_write_reg, traced, Id.run]
  all_goals try split_ifs
  all_goals simp [pure]

/-! ## Interplay of bus mode and output rate (C18, C19) -/

/-- Claim C18: for every initial register contents and every bus mode `m`, on
the transport that never fails and persists written bytes,
`ais25ba_mode_set` with 24 kHz followed by `ais25ba_bus_mode_set` with `m` and
then `ais25ba_mode_get` returns 8 kHz when the slot-mapping of `m` is disabled
and 16 kHz when it is enabled, never 24 kHz. -/
theorem bus_mode_set_overrides_rate (m : ais25ba_bus_mode_t)
    (regs stack stack2 stack3 : Nat → Nat) :
    ∃ regs1 regs2 : Nat → Nat,
      ais25ba_mode_set (some regfile) regs ⟨ais25ba_odr_t.AIS25BA_XL_24kHz⟩ stack = (0, regs1)
        ∧ ais25ba_bus_mode_set (some regfile) regs1 m stack2 = (0, regs2)
        ∧ ais25ba_mode_get (some regfile) regs2 stack3
            = (0, ⟨if member 1 m.mapping = PROPERTY_DISABLE then ais25ba_odr_t.AIS25BA_XL_8kHz
                else ais25ba_odr_t.AIS25BA_XL_16kHz⟩, regs2)
        ∧ (ais25ba_mode_get (some regfile) regs2 stack3).2.1.odr
            ≠ ais25ba_odr_t.AIS25BA_XL_24kHz := by
  have hget : ais25ba_mode_get (some regfile)
      (ais25ba_bus_mode_set (some regfile)
        (ais25ba_mode_set (some regfile) regs ⟨ais25ba_odr_t.AIS25BA_XL_24kHz⟩ stack).2
        m stack2).2 stack3
      = (0, ⟨if member 1 m.mapping = PROPERTY_DISABLE then ais25ba_odr_t.AIS25BA_XL_8kHz
                else ais25ba_odr_t.AIS25BA_XL_16kHz⟩,
          (ais25ba_bus_mode_set (some regfile)
            (ais25ba_mode_set (some regfile) regs ⟨ais25ba_odr_t.AIS25BA_XL_24kHz⟩ stack).2
            m stack2).2) := by
    simp (disch := decide) [ais25ba_mode_set, ais25ba_bus_mode_set, assign_tdm_cmax_h,
      assign_tdm_cmax_l, ais25ba_mode_get,
      ais25ba_read_reg, ais25ba_write_reg, regfile, regfile_read_one, regfile_read_two,
      regfile_write_one, regfile_write_two, Id.run, bytecpy, AIS25BA_TDM_CTRL_REG,
      AIS25BA_CTRL_REG_1, AIS25BA_TDM_CMAX_H, Function.update, BitField.get_set_same,
      BitField.get_set_apart, List.getElem?_cons_zero, List.getD_cons_zero,
      List.getD_cons_succ]
    have hm : member 1 m.mapping = 0 ∨ member 1 m.mapping = 1 := by
      unfold member; omega
    rcases hm with h | h <;> rw [h] <;> decide
  refine ⟨(ais25ba_mode_set (some regfile) regs ⟨ais25ba_odr_t.AIS25BA_XL_24kHz⟩ stack).2,
    (ais25ba_bus_mode_set (some regfile)
      (ais25ba_mode_set (some regfile) regs ⟨ais25ba_odr_t.AIS25BA_XL_24kHz⟩ stack).2
      m stack2).2, ?_, ?_, hget, ?_⟩
  · simp [ais25ba_mode_set, ais25ba_read_reg, ais25ba_write_reg, regfile, Id.run]
  · simp [ais25ba_bus_mode_set, ais25ba_read_reg, ais25ba_write_reg, regfile, Id.run]
  · rw [hget]
    simp only []
    split <;> decide

/-- Claim C19: for every initial register contents and every enumerator `r`
of the output-rate mode, on the transport that never fails and persists
written bytes, `ais25ba_mode_set` with `r` followed by `ais25ba_bus_mode_get`
reports as slot-mapping the least significant bit of the `wclk_fq` field,
which holds bits 1-2 of the code of `r`: slot-mapping is enabled, and the
offset of `ais25ba_data_get` is 4, exactly when `r` is 16 kHz. -/
theorem mode_set_drives_slot_mapping (r : ais25ba_odr_t) (regs stack stack2 : Nat → Nat) :
    ∃ (regs1 : Nat → Nat) (bus : ais25ba_bus_mode_t),
      ais25ba_mode_set (some regfile) regs ⟨r⟩ stack = (0, regs1)
        ∧ ais25ba_bus_mode_get (some regfile) regs1 stack2 = (0, bus, regs1)
        ∧ bus.mapping = tdm_ctrl_reg_wclk_fq.get (regs1 AIS25BA_TDM_CTRL_REG) % 2
        ∧ tdm_ctrl_reg_wclk_fq.get (regs1 AIS25BA_TDM_CTRL_REG) = r.code / 2 % 4
        ∧ (bus.mapping = PROPERTY_ENABLE ↔ r = ais25ba_odr_t.AIS25BA_XL_16kHz)
        ∧ (bus.mapping = PROPERTY_DISABLE ↔ r ≠ ais25ba_odr_t.AIS25BA_XL_16kHz)
        ∧ (data_get_offset bus = 4 ↔ r = ais25ba_odr_t.AIS25BA_XL_16kHz)
        ∧ (data_get_offset bus = 0 ↔ r ≠ ais25ba_odr_t.AIS25BA_XL_16kHz) := by
  refine ⟨(ais25ba_mode_set (some regfile) regs ⟨r⟩ stack).2,
    (ais25ba_bus_mode_get (some regfile)
      (ais25ba_mode_set (some regfile) regs ⟨r⟩ stack).2 stack2).2.1, ?_, ?_, ?_, ?_, ?_, ?_,
    ?_, ?_⟩
  · simp [ais25ba_mode_set, ais25ba_read_reg, ais25ba_write_reg, regfile, Id.run]
  · simp [ais25ba_bus_mode_get, ais25ba_read_reg, regfile, Id.run]
  all_goals
    simp (disch := decide) [ais25ba_mode_set, ais25ba_bus_mode_get, data_get_offset,
      ais25ba_read_reg, ais25ba_write_reg, regfile, regfile_read_one, regfile_read_two,
      regfile_write_one, regfile_write_two, Id.run, bytecpy, AIS25BA_TDM_CTRL_REG,
      AIS25BA_CTRL_REG_1, AIS25BA_TDM_CMAX_H, Function.update, BitField.get_set_same,
      BitField.get_set_apart, List.getElem?_cons_zero, List.getD_cons_zero,
      List.getD_cons_succ]
  all_goals cases r <;> decide

/-! ## Clock-divider registers after `ais25ba_bus_mode_set` (C20) -/

/-- An assignment to the 8-bit member of `ais25ba_tdm_cmax_l_t` replaces the
whole byte. -/
theorem tdm_cmax_l_set_byte (b v : Nat) (h : b < 256) :
    tdm_cmax_l_tdm_cmax.set b v = v % 256 := by
  simp [BitField.set, tdm_cmax_l_tdm_cmax, fieldAt, ais25ba_tdm_cmax_l_t]
  omega

/-- The 4-bit member of `ais25ba_tdm_cmax_h_t` is the low nibble of the byte. -/
theorem tdm_cmax_h_get_low_nibble (b : Nat) : tdm_cmax_h_tdm_cmax.get b = b % 16 := by
  simp [BitField.get, tdm_cmax_h_tdm_cmax, fieldAt, ais25ba_tdm_cmax_h_t]

/-- The 8-bit member of `ais25ba_tdm_cmax_l_t` after the second assignment
holds the difference of `cmax` and the high nibble, converted to `uint8_t`. -/
theorem assign_tdm_cmax_l_value (cmax h l : Nat) :
    tdm_cmax_l_tdm_cmax.get (assign_tdm_cmax_l cmax h l)
      = wrap 8 ((cmax : Int) - (tdm_cmax_h_tdm_cmax.get h : Int)) := by
  have hw : (2 : Nat) ^ tdm_cmax_l_tdm_cmax.width = 256 := by decide
  unfold assign_tdm_cmax_l
  rw [BitField.get_set_same, hw]
  unfold wrap
  norm_num
  omega

/-- Claim C20: for every bus mode and every initial register contents (register
0x25 holding a byte), on the persisting transport `ais25ba_bus_mode_set`
returns 0 and leaves 0 in the low four bits of register 0x24 and the value of
the one-bit `cmax` member, 0 or 1, in register 0x25.  The two registers are
the results of the two assignments the function makes, and the second one
stores `cmax` minus the high nibble: for the value 256 it gives the low byte
255 = 256 - 1 after the high nibble 1, and not 0 = 256 - 256 * 1. -/
theorem bus_mode_set_cmax_registers (m : ais25ba_bus_mode_t) (regs stack : Nat → Nat)
    (hbyte : regs AIS25BA_TDM_CMAX_L < 256) :
    ∃ regs2 : Nat → Nat,
      ais25ba_bus_mode_set (some regfile) regs m stack = (0, regs2)
        ∧ tdm_cmax_h_tdm_cmax.get (regs2 AIS25BA_TDM_CMAX_H) = 0
        ∧ regs2 AIS25BA_TDM_CMAX_H % 2 ^ 4 = 0
        ∧ regs2 AIS25BA_TDM_CMAX_L = member 1 m.cmax
        ∧ member 1 m.cmax < 2
        ∧ regs2 AIS25BA_TDM_CMAX_H
            = assign_tdm_cmax_h (member 1 m.cmax) (regs AIS25BA_TDM_CMAX_H)
        ∧ regs2 AIS25BA_TDM_CMAX_L
            = assign_tdm_cmax_l (member 1 m.cmax) (regs2 AIS25BA_TDM_CMAX_H)
                (regs AIS25BA_TDM_CMAX_L)
        ∧ (∀ cmax h l : Nat,
            tdm_cmax_l_tdm_cmax.get (assign_tdm_cmax_l cmax h l)
              = wrap 8 ((cmax : Int) - (tdm_cmax_h_tdm_cmax.get h : Int)))
        ∧ assign_tdm_cmax_h 256 0 = 1
        ∧ assign_tdm_cmax_l 256 (assign_tdm_cmax_h 256 0) 0 = 255
        ∧ assign_tdm_cmax_l 256 (assign_tdm_cmax_h 256 0) 0
            ≠ wrap 8 ((256 : Int)
                - 256 * (tdm_cmax_h_tdm_cmax.get (assign_tdm_cmax_h 256 0) : Int)) := by
  have hc : member 1 m.cmax = 0 ∨ member 1 m.cmax = 1 := by
    unfold member; omega
  have hb : regs 37 < 256 := hbyte
  refine ⟨(ais25ba_bus_mode_set (some regfile) regs m stack).2, ?_, ?_, ?_, ?_, ?_, ?_, ?_,
    assign_tdm_cmax_l_value, by decide, by decide, by decide⟩
  · simp [ais25ba_bus_mode_set, ais25ba_read_reg, ais25ba_write_reg, regfile, Id.run]
  all_goals
    try simp (disch := decide) [ais25ba_bus_mode_set, ais25ba_read_reg, ais25ba_write_reg,
      regfile, regfile_read_one, regfile_read_two, regfile_write_one, regfile_write_two,
      Id.run, bytecpy, AIS25BA_TDM_CTRL_REG, AIS25BA_TDM_CMAX_H, AIS25BA_TDM_CMAX_L,
      Function.update, List.getElem?_cons_zero, List.getD_cons_zero, List.getD_cons_succ]
  · unfold assign_tdm_cmax_h
    rw [BitField.get_set_same]
    rcases hc with h | h <;> rw [h] <;> decide
  · unfold assign_tdm_cmax_h
    rw [← tdm_cmax_h_get_low_nibble, BitField.get_set_same]
    rcases hc with h | h <;> rw [h] <;> decide
  · unfold assign_tdm_cmax_l assign_tdm_cmax_h
    rw [tdm_cmax_l_set_byte _ _ hb, BitField.get_set_same]
    rcases hc with h | h <;> rw [h] <;> decide
  · unfold member; omega

/-- Witness of `bus_mode_set_cmax_registers`: the bus mode (1, 0, 1, 1, 1) on a
register file holding 0xFF everywhere. -/
theorem bus_mode_set_cmax_registers_witness :
    (fun _ : Nat => 0xFF) AIS25BA_TDM_CMAX_L < 256 ∧
    ∃ regs2 : Nat → Nat,
      ais25ba_bus_mode_set (some regfile) (fun _ => 0xFF) ⟨1, 0, 1, 1, 1⟩ (fun _ => 0)
          = (0, regs2)
        ∧ tdm_cmax_h_tdm_cmax.get (regs2 AIS25BA_TDM_CMAX_H) = 0
        ∧ regs2 AIS25BA_TDM_CMAX_H % 2 ^ 4 = 0
        ∧ regs2 AIS25BA_TDM_CMAX_L = member 1 1
        ∧ member 1 1 < 2
        ∧ regs2 AIS25BA_TDM_CMAX_H
            = assign_tdm_cmax_h (member 1 1) ((fun _ : Nat => 0xFF) AIS25BA_TDM_CMAX_H)
        ∧ regs2 AIS25BA_TDM_CMAX_L
            = assign_tdm_cmax_l (member 1 1) (regs2 AIS25BA_TDM_CMAX_H)
                ((fun _ : Nat => 0xFF) AIS25BA_TDM_CMAX_L)
        ∧ (∀ cmax h l : Nat,
            tdm_cmax_l_tdm_cmax.get (assign_tdm_cmax_l cmax h l)
              = wrap 8 ((cmax : Int) - (tdm_cmax_h_tdm_cmax.get h : Int)))
        ∧ assign_tdm_cmax_h 256 0 = 1
        ∧ assign_tdm_cmax_l 256 (assign_tdm_cmax_h 256 0) 0 = 255
        ∧ assign_tdm_cmax_l 256 (assign_tdm_cmax_h 256 0) 0
            ≠ wrap 8 ((256 : Int)
                - 256 * (tdm_cmax_h_tdm_cmax.get (assign_tdm_cmax_h 256 0) : Int)) :=
  ⟨by decide, bus_mode_set_cmax_registers ⟨1, 0, 1, 1, 1⟩ (fun _ => 0xFF) (fun _ => 0)
    (by decide)⟩

/-! ## Self test: the argument is reduced to its least significant bit (C21) -/

/-- Claim C21: for every argument `val` and every initial register contents, on
the transport that never fails and persists written bytes,
`ais25ba_self_test_set` returns 0 and leaves `val mod 2` in the self-test bit
(bit 3 of register 0x0B), and a following `ais25ba_self_test_get` returns 0 and
`val mod 2`; with the non-zero even argument 2 the bit is 0 and the value
returned is 0. -/
theorem self_test_set_uses_low_bit (val : Nat) (regs stack stack2 : Nat → Nat) :
    (∃ regs2 : Nat → Nat,
      ais25ba_self_test_set (some regfile) regs val stack = (0, regs2)
        ∧ test_reg_st.get (regs2 AIS25BA_TEST_REG) = val % 2
        ∧ test_reg_st.get (regs2 AIS25BA_TEST_REG) = regs2 AIS25BA_TEST_REG / 2 ^ 3 % 2
        ∧ ais25ba_self_test_get (some regfile) regs2 stack2 = (0, val % 2, regs2))
      ∧ (∃ regs3 : Nat → Nat,
        ais25ba_self_test_set (some regfile) regs 2 stack = (0, regs3)
          ∧ test_reg_st.get (regs3 AIS25BA_TEST_REG) = 0
          ∧ ais25ba_self_test_get (some regfile) regs3 stack2 = (0, 0, regs3)) := by
  have key : ∀ v : Nat,
      (ais25ba_self_test_set (some regfile) regs v stack).1 = 0
        ∧ test_reg_st.get ((ais25ba_self_test_set (some regfile) regs v stack).2
            AIS25BA_TEST_REG) = v % 2
        ∧ ais25ba_self_test_get (some regfile)
            (ais25ba_self_test_set (some regfile) regs v stack).2 stack2
          = (0, v % 2, (ais25ba_self_test_set (some regfile) regs v stack).2) := by
    intro v
    have hw : v % 2 ^ test_reg_st.width = v % 2 := by
      have : (2 : Nat) ^ test_reg_st.width = 2 := by decide
      rw [this]
    refine ⟨?_, ?_, ?_⟩
    all_goals
      simp (disch := decide) [ais25ba_self_test_set, ais25ba_self_test_get, ais25ba_read_reg,
        ais25ba_write_reg, regfile, regfile_read_one, regfile_write_one, Id.run,
        AIS25BA_TEST_REG, Function.update, BitField.get_set_same, List.getElem?_cons_zero,
        List.getD_cons_zero]
    all_goals exact hw
  constructor
  · exact ⟨(ais25ba_self_test_set (some regfile) regs val stack).2,
      Prod.ext (key val).1 rfl, (key val).2.1, rfl, (key val).2.2⟩
  · exact ⟨(ais25ba_self_test_set (some regfile) regs 2 stack).2,
      Prod.ext (key 2).1 rfl, (key 2).2.1, (key 2).2.2⟩

/-- The argument 2 on a register file holding 0xFF everywhere: register 0x0B
becomes 0xF7 and `ais25ba_self_test_get` returns 0; the argument 3 leaves 0xFF
and 1 is returned. -/
theorem self_test_even_argument_example :
    (ais25ba_self_test_set (some regfile) (fun _ => 0xFF) 2 (fun _ => 0)).2 AIS25BA_TEST_REG
        = 0xF7
      ∧ (ais25ba_self_test_get (some regfile)
          (ais25ba_self_test_set (some regfile) (fun _ => 0xFF) 2 (fun _ => 0)).2
          (fun _ => 0)).2.1 = 0
      ∧ (ais25ba_self_test_set (some regfile) (fun _ => 0xFF) 3 (fun _ => 0)).2 AIS25BA_TEST_REG
        = 0xFF
      ∧ (ais25ba_self_test_get (some regfile)
          (ais25ba_self_test_set (some regfile) (fun _ => 0xFF) 3 (fun _ => 0)).2
          (fun _ => 0)).2.1 = 1 := by
  decide

end AIS25BA
